import Mathlib

/-!
Verification of the pact-reference matching engine.

This file embeds, in Lean, the matching code of the repository:

* the scalar matchers and rule composition of rust/pact_matching/src/matchers.rs,
* the JSON tree walk of rust/pact_matching/src/json.rs,
* the request/response orchestration, header, query and body matching of
  rust/libpact_matching/src/lib.rs,

and proves (or refutes) the properties claimed of them.  Code of the
repository that is not available (the pact_models crate, the matchingrules
module, the old models module) is modelled from the design document and is
marked as such; everything else is translated directly from the Rust source.

Rust panics are modelled by returning none from an Option-valued function.
-/

namespace PactShared


/-- Wraps a string in single quotes, as the Rust format strings do. -/
def q (s : String) : String := "\x27" ++ s ++ "\x27"

/-- The loop of splitStr: leftmost non-overlapping split of a character
list on a non-empty separator, fuelled by the input length (one step
always consumes at least one character). -/
def splitGo (sep : List Char) : Nat → List Char → List Char → List (List Char)
  | _, cur, [] => [cur]
  | 0, cur, rest => [cur ++ rest]
  | Nat.succ f, cur, c :: t =>
    if sep.isPrefixOf (c :: t) then
      cur :: splitGo sep f [] ((c :: t).drop sep.length)
    else
      splitGo sep f (cur ++ [c]) t

/-- Rust str::split on a string pattern (and Lean String.splitOn), defined
over character lists so that it evaluates by reduction. -/
def splitStr (s sep : String) : List String :=
  if sep = "" then [s]
  else (splitGo sep.data (s.data.length + 1) [] s.data).map String.mk

/-- Rust str::trim (whitespace from both ends), over character lists. -/
def trimStr (s : String) : String :=
  String.mk (((s.data.dropWhile Char.isWhitespace).reverse.dropWhile
    Char.isWhitespace).reverse)

/-- Rust str::to_lowercase (ASCII coverage suffices for the embedded
call sites), over character lists. -/
def lowerStr (s : String) : String :=
  String.mk (s.data.map Char.toLower)

/-- Substring containment, as Rust str::contains on a string pattern:
the empty pattern always matches. -/
def containsSub (s sub : String) : Bool :=
  if sub = "" then true else (splitStr s sub).length > 1

/-- Numeric value of a list of ASCII digits. -/
def digitsVal (cs : List Char) : Nat :=
  cs.foldl (fun a c => a * 10 + (c.toNat - 48)) 0

/-- Rust u64::from_str: an optional leading plus sign, then one or more
ASCII digits, value below 2^64. -/
def parseU64 (s : String) : Option Nat :=
  let cs := s.data
  let cs := match cs with
    | '+' :: rest => rest
    | _ => cs
  if cs ≠ [] ∧ cs.all Char.isDigit then
    let v := digitsVal cs
    if v < 2 ^ 64 then some v else none
  else none

/-- Rust u16::from_str: as parseU64 with the 2^16 bound. -/
def parseU16 (s : String) : Option Nat :=
  let cs := s.data
  let cs := match cs with
    | '+' :: rest => rest
    | _ => cs
  if cs ≠ [] ∧ cs.all Char.isDigit then
    let v := digitsVal cs
    if v < 2 ^ 16 then some v else none
  else none

/-- All characters are ASCII digits. -/
def allDigits (cs : List Char) : Bool := cs.all Char.isDigit

/-- Significand of the Rust float grammar: digits, optionally a dot and more
digits, or a dot followed by digits, at least one digit in total. -/
def f64SigOk (cs : List Char) : Bool :=
  match cs.splitOn '.' with
  | [ds] => ds ≠ [] && allDigits ds
  | [ds, fs] => (ds ≠ [] || fs ≠ []) && allDigits ds && allDigits fs
  | _ => false

/-- Rust f64::from_str grammar: Sign? (inf | infinity | nan | Significand Exp?),
Exp = (e|E) Sign? Digits.  Only the success of the parse is modelled; the
embedded code never uses the parsed value. -/
def parseF64Ok (s : String) : Bool :=
  let cs := s.data
  let cs := match cs with
    | '+' :: rest => rest
    | '-' :: rest => rest
    | _ => cs
  let lower := String.mk (cs.map Char.toLower)
  if lower = "inf" ∨ lower = "infinity" ∨ lower = "nan" then true
  else
    match cs.splitOn 'e', cs.splitOn 'E' with
    | [_], [sig, exp] => f64SigOk sig && f64ExpOk exp
    | [sig, exp], _ => f64SigOk sig && f64ExpOk exp
    | [sig], [_] => f64SigOk sig
    | _, _ => false
where
  f64ExpOk (exp : List Char) : Bool :=
    let expCs := match exp with
      | '+' :: rest => rest
      | '-' :: rest => rest
      | _ => exp
    expCs ≠ [] && allDigits expCs

end PactShared

namespace PactMatching

open PactShared

/-- The pact_models HttpStatus enum.
Modelled from the spec: pact_models is not among the sources; the
status-code classes are listed in section 4.2 of the design document and
matched one-to-one in matchers.rs. -/
inductive HttpStatus where
  | information
  | success
  | redirect
  | clientError
  | serverError
  | statusCodes (codes : List Nat)
  | nonError
  | error
deriving DecidableEq

/-- The matching rule variants of the pact_models crate.
Modelled from the spec: the pact_models MatchingRule enum is not among the
sources; section 3 of the design document lists its variants.  The
ArrayContains payload (sub-rule categories and generators) is kept abstract
as a list of variant indices since none of the embedded code inspects it. -/
inductive MatchingRule where
  | equality
  | regex (pattern : String)
  | type
  | minType (min : Nat)
  | maxType (max : Nat)
  | minMaxType (min max : Nat)
  | timestamp (format : String)
  | time (format : String)
  | date (format : String)
  | includes (substr : String)
  | number
  | integer
  | decimal
  | null
  | contentType (media : String)
  | arrayContains (variants : List Nat)
  | values
  | boolean
  | statusCode (status : HttpStatus)
deriving DecidableEq

/-- External engines used by the scalar matchers: the onig regex crate, the
pact_models date/time validator, UTF-8 decoding and the binary content-type
sniffer.  These crates are outside the repository, so they enter the
embedding as parameters: regexCompile returns none when the pattern is
invalid, otherwise a match predicate; validateDatetime returns the
validation error text on failure. -/
structure MatchEnv where
  regexCompile : String → Option (String → Bool)
  regexCompileErr : String → String
  validateDatetime : String → String → Except String Unit
  contentTypeMatch : List Nat → String → Except String Unit
  utf8Decode : List Nat → Option String
  utf8ErrShow : List Nat → String

/-- The result type of a scalar matcher, anyhow::Result of unit. -/
abbrev MResultS := Except String Unit

/-- match_status_code of matchers.rs. -/
def matchStatusCode (statusCode : Nat) (status : HttpStatus) : MResultS :=
  let m : Bool := match status with
    | .information => decide (100 ≤ statusCode ∧ statusCode ≤ 199)
    | .success => decide (200 ≤ statusCode ∧ statusCode ≤ 299)
    | .redirect => decide (300 ≤ statusCode ∧ statusCode ≤ 399)
    | .clientError => decide (400 ≤ statusCode ∧ statusCode ≤ 499)
    | .serverError => decide (500 ≤ statusCode ∧ statusCode ≤ 599)
    | .statusCodes codes => decide (statusCode ∈ codes)
    | .nonError => decide (statusCode < 400)
    | .error => decide (statusCode ≥ 400)
  if m then Except.ok ()
  else Except.error ("Expected status code " ++ toString statusCode ++
    " to be a " ++ httpStatusShow status)
where
  /-- Display of HttpStatus.
  Modelled from the spec: the Display impl lives in pact_models; only the
  text of an error message depends on it. -/
  httpStatusShow : HttpStatus → String
    | .information => "Informational response (100-199)"
    | .success => "Successful response (200-299)"
    | .redirect => "Redirect (300-399)"
    | .clientError => "Client error (400-499)"
    | .serverError => "Server error (500-599)"
    | .statusCodes codes => String.intercalate ", " (codes.map toString)
    | .nonError => "Non-error response (< 400)"
    | .error => "Error response (>= 400)"

end PactMatching

namespace PactMatching

open PactShared

/-- Rust Debug rendering of a string: quoted, with common escapes. -/
def rustDebugStr (s : String) : String :=
  "\"" ++ String.join (s.data.map fun c =>
    if c = '\\' then "\\\\"
    else if c = '\"' then "\\\""
    else if c = '\n' then "\\n"
    else if c = '\t' then "\\t"
    else if c = '\r' then "\\r"
    else String.singleton c) ++ "\""

/-- Rust Debug rendering of the MatchingRule enum, used in the
catch-all error messages of matchers.rs. -/
def ruleDebug : MatchingRule → String
  | .equality => "Equality"
  | .regex p => "Regex(" ++ rustDebugStr p ++ ")"
  | .type => "Type"
  | .minType n => "MinType(" ++ toString n ++ ")"
  | .maxType n => "MaxType(" ++ toString n ++ ")"
  | .minMaxType n m => "MinMaxType(" ++ toString n ++ ", " ++ toString m ++ ")"
  | .timestamp f => "Timestamp(" ++ rustDebugStr f ++ ")"
  | .time f => "Time(" ++ rustDebugStr f ++ ")"
  | .date f => "Date(" ++ rustDebugStr f ++ ")"
  | .includes s => "Include(" ++ rustDebugStr s ++ ")"
  | .number => "Number"
  | .integer => "Integer"
  | .decimal => "Decimal"
  | .null => "Null"
  | .contentType m => "ContentType(" ++ rustDebugStr m ++ ")"
  | .arrayContains _ => "ArrayContains(..)"
  | .values => "Values"
  | .boolean => "Boolean"
  | .statusCode _ => "StatusCode(..)"

/-- Display of a Rust integer parse error, as in the StatusCode arm of the
string matcher. -/
def parseIntErrShow (s : String) : String :=
  if s.data.isEmpty then "cannot parse integer from empty string"
  else if (match s.data with
    | '+' :: rest => rest ≠ [] ∧ rest.all Char.isDigit
    | cs => cs.all Char.isDigit : Bool) then "number too large to fit in target type"
  else "invalid digit found in string"

/-- impl Matches of a string slice against a string slice
(matchers.rs lines 50-129). -/
def strMatchesWith (env : MatchEnv) (self actual : String)
    (matcher : MatchingRule) (_cascaded : Bool) : MResultS :=
  match matcher with
  | .regex regex =>
    match env.regexCompile regex with
    | some re =>
      if re actual then .ok ()
      else .error ("Expected " ++ q actual ++ " to match " ++ q regex)
    | none => .error (q regex ++ " is not a valid regular expression - " ++
        env.regexCompileErr regex)
  | .equality =>
    if self = actual then .ok ()
    else .error ("Expected " ++ q self ++ " to be equal to " ++ q actual)
  | .type | .minType _ | .maxType _ | .minMaxType _ _ => .ok ()
  | .includes substr =>
    if containsSub actual substr then .ok ()
    else .error ("Expected " ++ q actual ++ " to include " ++ q substr)
  | .number | .decimal =>
    if parseF64Ok actual then .ok ()
    else .error ("Expected " ++ q actual ++ " to match a number")
  | .integer =>
    match parseU64 actual with
    | some _ => .ok ()
    | none => .error ("Expected " ++ q actual ++ " to match an integer number")
  | .date s =>
    match env.validateDatetime actual s with
    | .ok _ => .ok ()
    | .error _ => .error ("Expected " ++ q actual ++ " to match a date format of " ++ q s)
  | .time s =>
    match env.validateDatetime actual s with
    | .ok _ => .ok ()
    | .error _ => .error ("Expected " ++ q actual ++ " to match a time format of " ++ q s)
  | .timestamp s =>
    match env.validateDatetime actual s with
    | .ok _ => .ok ()
    | .error _ => .error ("Expected " ++ q actual ++ " to match a timestamp format of " ++ q s)
  | .boolean =>
    if actual = "true" ∨ actual = "false" then .ok ()
    else .error ("Expected " ++ q actual ++ " to match a boolean")
  | .statusCode status =>
    match parseU16 actual with
    | some code => matchStatusCode code status
    | none => .error ("Unable to match " ++ q self ++ " using " ++
        ruleDebug matcher ++ " - " ++ parseIntErrShow actual)
  | _ => .error ("Unable to match " ++ q self ++ " using " ++ ruleDebug matcher)

/-- Display string of an f64 value.  The embedded impls of matchers.rs only
ever format the float, so a float is carried as its display text. -/
structure F64 where
  repr : String
deriving DecidableEq

/-- impl Matches of an f64 actual against a u64 expected
(matchers.rs lines 217-251). -/
def u64F64MatchesWith (env : MatchEnv) (self : Nat) (actual : F64)
    (matcher : MatchingRule) (_cascaded : Bool) : MResultS :=
  match matcher with
  | .regex regex =>
    match env.regexCompile regex with
    | some re =>
      if re actual.repr then .ok ()
      else .error ("Expected " ++ actual.repr ++ " to match " ++ q regex)
    | none => .error (q regex ++ " is not a valid regular expression - " ++
        env.regexCompileErr regex)
  | .type | .minType _ | .maxType _ | .minMaxType _ _ =>
    .error ("Expected " ++ toString self ++ " (Integer) to be the same type as " ++
      actual.repr ++ " (Decimal)")
  | .equality =>
    .error ("Expected " ++ toString self ++ " (Integer) to be equal to " ++
      actual.repr ++ " (Decimal)")
  | .includes substr =>
    if containsSub actual.repr substr then .ok ()
    else .error ("Expected " ++ actual.repr ++ " to include " ++ q substr)
  | .number | .decimal => .ok ()
  | .integer => .error ("Expected " ++ actual.repr ++ " to match an integer number")
  | _ => .error ("Unable to match " ++ toString self ++ " using " ++ ruleDebug matcher)

/-- impl Matches of a u64 actual against an f64 expected
(matchers.rs lines 295-329). -/
def f64U64MatchesWith (env : MatchEnv) (self : F64) (actual : Nat)
    (matcher : MatchingRule) (_cascaded : Bool) : MResultS :=
  match matcher with
  | .regex regex =>
    match env.regexCompile regex with
    | some re =>
      if re (toString actual) then .ok ()
      else .error ("Expected " ++ q (toString actual) ++ " to match " ++ q regex)
    | none => .error (q regex ++ " is not a valid regular expression - " ++
        env.regexCompileErr regex)
  | .type | .minType _ | .maxType _ | .minMaxType _ _ =>
    .error ("Expected " ++ self.repr ++ " (Decimal) to be the same type as " ++
      toString actual ++ " (Integer)")
  | .equality =>
    .error ("Expected " ++ self.repr ++ " (Decimal) to be equal to " ++
      toString actual ++ " (Integer)")
  | .includes substr =>
    if containsSub (toString actual) substr then .ok ()
    else .error ("Expected " ++ toString actual ++ " to include " ++ q substr)
  | .number | .integer => .ok ()
  | .decimal => .error ("Expected " ++ toString actual ++ " to match a decimal number")
  | _ => .error ("Unable to match " ++ q self.repr ++ " using " ++ ruleDebug matcher)

/-- Rust slice::split_at(mid).0, which panics (none) when mid exceeds the
length. -/
def rustSplitAtHead (mid : Nat) (l : List Nat) : Option (List Nat) :=
  if mid ≤ l.length then some (l.take mid) else none

/-- Rust Debug rendering of a byte slice. -/
def rustDebugBytes (l : List Nat) : String :=
  "[" ++ String.intercalate ", " (l.map toString) ++ "]"

/-- impl Matches of a Bytes actual against a Bytes expected
(matchers.rs lines 484-530).  The Equality and catch-all arms format the
first ten bytes with split_at(10), which panics when the sequence is
shorter; the panic is modelled as none. -/
def bytesMatchesWith (env : MatchEnv) (self actual : List Nat)
    (matcher : MatchingRule) (_cascaded : Bool) : Option MResultS :=
  match matcher with
  | .regex regex =>
    match env.regexCompile regex with
    | some re =>
      match env.utf8Decode actual with
      | some s => some (if re s then .ok ()
          else .error ("Expected " ++ q s ++ " to match " ++ q regex))
      | none => some (.error ("Could not convert actual bytes into a UTF-8 string - " ++
          env.utf8ErrShow actual))
    | none => some (.error (q regex ++ " is not a valid regular expression - " ++
        env.regexCompileErr regex))
  | .equality =>
    if self = actual then some (.ok ())
    else
      match rustSplitAtHead 10 self, rustSplitAtHead 10 actual with
      | some s1, some s2 =>
        some (.error ("Expected " ++ q (rustDebugBytes s1 ++ "...") ++ " (" ++
          toString self.length ++ " bytes) to be equal to " ++
          q (rustDebugBytes s2 ++ "...") ++ " (" ++ toString actual.length ++ " bytes)"))
      | _, _ => none
  | .type | .minType _ | .maxType _ | .minMaxType _ _ => some (.ok ())
  | .includes substr =>
    match env.utf8Decode actual with
    | some s => some (if containsSub s substr then .ok ()
        else .error ("Expected " ++ q s ++ " to include " ++ q substr))
    | none => some (.error ("Could not convert actual bytes into a UTF-8 string - " ++
        env.utf8ErrShow actual))
  | .contentType ct => some (env.contentTypeMatch actual ct)
  | _ =>
    match rustSplitAtHead 10 actual with
    | some s2 => some (.error ("Unable to match " ++ q (rustDebugBytes s2 ++ "...") ++
        " (" ++ toString actual.length ++ " bytes) using " ++ ruleDebug matcher))
    | none => none

end PactMatching

namespace PactMatching

open PactShared

/-- The rule-combination logic of a rule list.
Modelled from the spec: RuleLogic lives in pact_models; section 3 gives
the two values AND and OR. -/
inductive RuleLogic where
  | and
  | or
deriving DecidableEq

/-- A rule list as returned by select_best_matcher.
Modelled from the spec: RuleList lives in pact_models; section 3 gives its
fields (rules, logic, cascaded flag). -/
structure RuleList where
  rules : List MatchingRule
  ruleLogic : RuleLogic
  cascaded : Bool
deriving DecidableEq

/-- A serde_json number: an unsigned integer, a negative integer, or a
float carried by its display text (no arithmetic on floats is performed by
the embedded code). -/
inductive JsonNum where
  | posInt (n : Nat)
  | negInt (v : Int)
  | flt (repr : String)
deriving DecidableEq

/-- A serde_json value, with object entries as an association list (the
iteration order of the Rust map is unspecified; the list order stands in
for it). -/
inductive Json where
  | null
  | bool (b : Bool)
  | num (n : JsonNum)
  | str (s : String)
  | arr (items : List Json)
  | obj (entries : List (String × Json))

mutual

/-- Structural equality of serde_json values, the PartialEq impl. -/
def jsonBEq : Json → Json → Bool
  | .null, .null => true
  | .bool b1, .bool b2 => b1 = b2
  | .num n1, .num n2 => n1 = n2
  | .str s1, .str s2 => s1 = s2
  | .arr l1, .arr l2 => jsonBEqList l1 l2
  | .obj e1, .obj e2 => jsonBEqEntries e1 e2
  | _, _ => false

/-- Pointwise equality of JSON arrays. -/
def jsonBEqList : List Json → List Json → Bool
  | [], [] => true
  | j1 :: t1, j2 :: t2 => jsonBEq j1 j2 && jsonBEqList t1 t2
  | _, _ => false

/-- Pointwise equality of JSON object entry lists. -/
def jsonBEqEntries : List (String × Json) → List (String × Json) → Bool
  | [], [] => true
  | (k1, v1) :: t1, (k2, v2) :: t2 => k1 = k2 && jsonBEq v1 v2 && jsonBEqEntries t1 t2
  | _, _ => false

end

/-- serde_json is_i64: a positive integer within i64 range or any negative
integer. -/
def Json.isI64 : Json → Bool
  | .num (.posInt n) => n ≤ 2 ^ 63 - 1
  | .num (.negInt _) => true
  | _ => false

/-- serde_json is_u64. -/
def Json.isU64 : Json → Bool
  | .num (.posInt _) => true
  | _ => false

/-- serde_json is_f64. -/
def Json.isF64 : Json → Bool
  | .num (.flt _) => true
  | _ => false

/-- serde_json is_number. -/
def Json.isNumber : Json → Bool
  | .num _ => true
  | _ => false

/-- JSON string escaping as the serde_json compact serializer performs it. -/
def escapeJson (s : String) : String :=
  String.join (s.data.map fun c =>
    if c = '\\' then "\\\\"
    else if c = '\"' then "\\\""
    else if c = '\n' then "\\n"
    else if c = '\t' then "\\t"
    else if c = '\r' then "\\r"
    else if c.toNat < 32 then
      "\\u00" ++ String.singleton (Nat.digitChar (c.toNat / 16)) ++
        String.singleton (Nat.digitChar (c.toNat % 16))
    else String.singleton c)

/-- Serialization of a serde_json number. -/
def jsonNumSerialize : JsonNum → String
  | .posInt n => toString n
  | .negInt v => toString v
  | .flt r => r

mutual

/-- The serde_json compact serializer, the Display impl of Value. -/
def jsonSerialize : Json → String
  | .null => "null"
  | .bool b => if b then "true" else "false"
  | .num n => jsonNumSerialize n
  | .str s => "\"" ++ escapeJson s ++ "\""
  | .arr items => "[" ++ String.intercalate "," (jsonSerializeList items) ++ "]"
  | .obj entries =>
    "\x7b" ++ String.intercalate "," (jsonSerializeEntries entries) ++ "\x7d"

/-- Serialization of the items of a JSON array. -/
def jsonSerializeList : List Json → List String
  | [] => []
  | j :: t => jsonSerialize j :: jsonSerializeList t

/-- Serialization of the entries of a JSON object. -/
def jsonSerializeEntries : List (String × Json) → List String
  | [] => []
  | (k, v) :: t =>
    ("\"" ++ escapeJson k ++ "\":" ++ jsonSerialize v) :: jsonSerializeEntries t

end

/-- json_to_string of pact_models json_utils.
Modelled from the spec: pact_models is not among the sources; the mismatch
examples of sections 4.3 and 8 show strings rendered without quotes and
other values in their serialized form. -/
def jsonToString : Json → String
  | .str s => s
  | v => jsonSerialize v

/-- type_of of json.rs. -/
def typeOf : Json → String
  | .obj _ => "Map"
  | .arr _ => "List"
  | .null => "Null"
  | .bool _ => "Boolean"
  | .num _ => "Number"
  | .str _ => "String"

/-- The Mismatch enum of the pact_matching crate.
Modelled from the spec: the enum is declared in the crate root, which is
not among the sources; only the BodyMismatch variant (path, expected,
actual, description - section 3) is produced by the embedded JSON code. -/
inductive Mismatch2 where
  | bodyMismatch (path : String) (expected actual : Option String) (mismatch : String)
deriving DecidableEq

/-- The result type of the structural matchers. -/
abbrev MResult := Except (List Mismatch2) Unit

/-- merge_result of the pact_matching crate root.
Modelled from the spec: section 9 fixes the convention, a merge helper
with merge(a, b) = a ++ b and Ok standing for the empty list. -/
def mergeResult : MResult → MResult → MResult
  | .ok _, .ok _ => .ok ()
  | .error m, .ok _ => .error m
  | .ok _, .error m => .error m
  | .error m1, .error m2 => .error (m1 ++ m2)

/-- The DiffConfig enum of the pact_matching crate. -/
inductive DiffConfig2 where
  | allowUnexpectedKeys
  | noUnexpectedKeys
deriving DecidableEq

/-- The MatchingContext of the pact_matching crate root.
Modelled from the spec: the context (section 3) pairs a DiffConfig with a
rule category; its resolver methods select_best_matcher, matcher_is_defined
and match_keys, and the rule-driven comparison helpers of the
matchingrules module, are not among the sources and are carried as
function fields. -/
structure MatchingContext where
  config : DiffConfig2
  matcherIsDefined : List String → Bool
  selectBestMatcher : List String → RuleList
  matchKeys : List String → List (String × Json) → List (String × Json) → MResult
  compareListsWithRule : MatchingRule → List String → List Json → List Json → MResult
  compareMapsWithRule : MatchingRule → List String → List (String × Json) →
    List (String × Json) → MResult

/-- Success test of a scalar matcher result. -/
def mIsOk : MResultS → Bool
  | .ok _ => true
  | .error _ => false

/-- The error message of a failed scalar matcher result, if any. -/
def mErrMsg : MResultS → Option String
  | .ok _ => none
  | .error e => some e

/-- match_values of matchers.rs (lines 532-560), generic over the expected
and actual types through the matches_with dispatch function. -/
def matchValues {α β : Type} (matchesWith : α → β → MatchingRule → Bool → MResultS)
    (path : List String) (context : MatchingContext) (expected : α) (actual : β) :
    Except (List String) Unit :=
  let matchingRules := context.selectBestMatcher path
  if matchingRules.rules.isEmpty then
    .error ["No matcher found for path " ++ q (String.intercalate "." path)]
  else
    let results := matchingRules.rules.map
      (fun rule => matchesWith expected actual rule matchingRules.cascaded)
    match matchingRules.ruleLogic with
    | .and =>
      if results.all mIsOk then .ok ()
      else .error (results.filterMap mErrMsg)
    | .or =>
      if results.any mIsOk then .ok ()
      else .error (results.filterMap mErrMsg)

end PactMatching

namespace PactMatching

open PactShared

/-- impl Matches of a Value against a Value (json.rs lines 47-191).
convert_data of binary_utils (not among the sources) is passed in as a
function, as is the rest of the external environment. -/
def jsonMatchesWith (env : MatchEnv) (convertData : Json → List Nat)
    (self actual : Json) (matcher : MatchingRule) (cascaded : Bool) : MResultS :=
  match matcher with
  | .regex regex =>
    match env.regexCompile regex with
    | some re =>
      let actualStr := match actual with
        | .str s => s
        | _ => jsonSerialize actual
      if re actualStr then .ok ()
      else .error ("Expected " ++ q (jsonToString actual) ++ " to match " ++ q regex)
    | none => .error (q regex ++ " is not a valid regular expression - " ++
        env.regexCompileErr regex)
  | .includes substr =>
    let actualStr := match actual with
      | .str s => s
      | _ => jsonSerialize actual
    if containsSub actualStr substr then .ok ()
    else .error ("Expected " ++ q (jsonToString actual) ++ " to include " ++ q substr)
  | .type =>
    match self, actual with
    | .arr _, .arr _ => .ok ()
    | .bool _, .bool _ => .ok ()
    | .num _, .num _ => .ok ()
    | .null, .null => .ok ()
    | .obj _, .obj _ => .ok ()
    | .str _, .str _ => .ok ()
    | _, _ => .error ("Expected " ++ q (jsonToString self) ++
        " to be the same type as " ++ q (jsonToString actual))
  | .minType min =>
    match self, actual with
    | .arr _, .arr actualArray =>
      if !cascaded && actualArray.length < min then
        .error ("Expected " ++ q (jsonToString actual) ++ " to have at least " ++
          toString min ++ " item(s)")
      else .ok ()
    | .bool _, .bool _ => .ok ()
    | .num _, .num _ => .ok ()
    | .null, .null => .ok ()
    | .obj _, .obj _ => .ok ()
    | .str _, .str _ => .ok ()
    | _, _ => .error ("Expected " ++ q (jsonToString self) ++
        " to be the same type as " ++ q (jsonToString actual))
  | .maxType max =>
    match self, actual with
    | .arr _, .arr actualArray =>
      if !cascaded && actualArray.length > max then
        .error ("Expected " ++ q (jsonToString actual) ++ " to have at most " ++
          toString max ++ " item(s)")
      else .ok ()
    | .bool _, .bool _ => .ok ()
    | .num _, .num _ => .ok ()
    | .null, .null => .ok ()
    | .obj _, .obj _ => .ok ()
    | .str _, .str _ => .ok ()
    | _, _ => .error ("Expected " ++ q (jsonToString self) ++
        " to be the same type as " ++ q (jsonToString actual))
  | .minMaxType min max =>
    match self, actual with
    | .arr _, .arr actualArray =>
      if !cascaded && actualArray.length < min then
        .error ("Expected " ++ q (jsonToString actual) ++ " to have at least " ++
          toString min ++ " item(s)")
      else if !cascaded && actualArray.length > max then
        .error ("Expected " ++ q (jsonToString actual) ++ " to have at most " ++
          toString max ++ " item(s)")
      else .ok ()
    | .bool _, .bool _ => .ok ()
    | .num _, .num _ => .ok ()
    | .null, .null => .ok ()
    | .obj _, .obj _ => .ok ()
    | .str _, .str _ => .ok ()
    | _, _ => .error ("Expected " ++ q (jsonToString self) ++
        " to be the same type as " ++ q (jsonToString actual))
  | .equality | .values =>
    if jsonBEq self actual then .ok ()
    else .error ("Expected " ++ q (jsonToString self) ++ " to be equal to " ++
      q (jsonToString actual))
  | .null =>
    match actual with
    | .null => .ok ()
    | _ => .error ("Expected " ++ q (jsonToString actual) ++ " to be a null value")
  | .integer =>
    if actual.isI64 || actual.isU64 then .ok ()
    else .error ("Expected " ++ q (jsonToString actual) ++ " to be an integer value")
  | .decimal =>
    if actual.isF64 then .ok ()
    else .error ("Expected " ++ q (jsonToString actual) ++ " to be a decimal value")
  | .number =>
    if actual.isNumber then .ok ()
    else .error ("Expected " ++ q (jsonToString actual) ++ " to be a number")
  | .date s =>
    match env.validateDatetime (jsonToString actual) s with
    | .ok _ => .ok ()
    | .error err => .error ("Expected " ++ q (jsonSerialize actual) ++
        " to match a date format of " ++ q s ++ ": " ++ err)
  | .time s =>
    match env.validateDatetime (jsonToString actual) s with
    | .ok _ => .ok ()
    | .error err => .error ("Expected " ++ q (jsonSerialize actual) ++
        " to match a time format of " ++ q s ++ ": " ++ err)
  | .timestamp s =>
    match env.validateDatetime (jsonToString actual) s with
    | .ok _ => .ok ()
    | .error err => .error ("Expected " ++ q (jsonSerialize actual) ++
        " to match a timestamp format of " ++ q s ++ ": " ++ err)
  | .contentType expectedContentType =>
    match env.contentTypeMatch (convertData actual) expectedContentType with
    | .ok _ => .ok ()
    | .error err => .error ("Expected data to have a content type of " ++
        q expectedContentType ++ " but was " ++ err)
  | .boolean =>
    match actual with
    | .bool _ => .ok ()
    | .str val =>
      if val = "true" ∨ val = "false" then .ok ()
      else .error ("Expected " ++ q (jsonToString actual) ++ " to match a boolean")
    | _ => .error ("Expected " ++ q (jsonToString actual) ++ " to match a boolean")
  | _ => .ok ()

end PactMatching

namespace PactMatching

open PactShared

/-- Path join, path.join(".") of the Rust slices. -/
def joinDot (path : List String) : String := String.intercalate "." path

/-- Key containment in a serde_json object, Map::contains_key. -/
def containsKey (entries : List (String × Json)) (key : String) : Bool :=
  entries.any (fun kv => kv.1 = key)

/-- Value lookup in a serde_json object; the call sites guard it with
containsKey, so the default is never observed. -/
def lookupKey (entries : List (String × Json)) (key : String) : Json :=
  match entries.find? (fun kv => kv.1 = key) with
  | some kv => kv.2
  | none => Json.null

/-- compare_values of json.rs (lines 404-422). -/
def compareValues (env : MatchEnv) (convertData : Json → List Nat)
    (path : List String) (expected actual : Json) (context : MatchingContext) : MResult :=
  let matcherResult :=
    if context.matcherIsDefined path then
      matchValues (jsonMatchesWith env convertData) path context expected actual
    else
      match jsonMatchesWith env convertData expected actual .equality false with
      | .ok _ => .ok ()
      | .error err => .error [err]
  match matcherResult with
  | .ok _ => .ok ()
  | .error messages =>
    .error (messages.map (fun message =>
      Mismatch2.bodyMismatch (joinDot path) (some (jsonSerialize expected))
        (some (jsonSerialize actual)) message))

/-- The per-rule loop of the matcher-defined branch of compare_maps; the
rule-driven comparison itself is the compare_maps_with_matchingrule helper
of the matchingrules module, carried in the context. -/
def compareMapsRules (path : List String) (emap amap : List (String × Json))
    (context : MatchingContext) : MResult :=
  (context.selectBestMatcher path).rules.foldl
    (fun result matcher =>
      mergeResult result (context.compareMapsWithRule matcher path emap amap))
    (.ok ())

/-- The per-rule loop of the matcher-defined branch of compare_lists. -/
def compareListsRules (path : List String) (elist alist : List Json)
    (context : MatchingContext) : MResult :=
  (context.selectBestMatcher path).rules.foldl
    (fun result matcher =>
      mergeResult result (context.compareListsWithRule matcher path elist alist))
    (.ok ())

mutual

/-- compare of json.rs (lines 284-309). -/
def compare (env : MatchEnv) (cd : Json → List Nat) (path : List String)
    (expected actual : Json) (context : MatchingContext) : MResult :=
  match expected, actual with
  | .obj emap, .obj amap => compareMaps env cd path emap amap context
  | .obj _, _ =>
    .error [Mismatch2.bodyMismatch (joinDot path) (some (jsonToString expected))
      (some (jsonToString actual))
      ("Type mismatch: Expected " ++ typeOf expected ++ " " ++ jsonSerialize expected ++
        " but received " ++ typeOf actual ++ " " ++ jsonSerialize actual)]
  | .arr elist, .arr alist => compareLists env cd path elist alist context
  | .arr _, _ =>
    .error [Mismatch2.bodyMismatch (joinDot path) (some (jsonToString expected))
      (some (jsonToString actual))
      ("Type mismatch: Expected " ++ typeOf expected ++ " " ++ jsonToString expected ++
        " but received " ++ typeOf actual ++ " " ++ jsonToString actual)]
  | _, _ => compareValues env cd path expected actual context
termination_by (sizeOf expected, 3)

/-- compare_maps of json.rs (lines 311-347). -/
def compareMaps (env : MatchEnv) (cd : Json → List Nat) (path : List String)
    (emap amap : List (String × Json)) (context : MatchingContext) : MResult :=
  let spath := joinDot path
  if emap.isEmpty && context.config = DiffConfig2.noUnexpectedKeys && !amap.isEmpty then
    .error [Mismatch2.bodyMismatch spath (some (jsonToString (.obj emap)))
      (some (jsonToString (.obj amap)))
      ("Expected an empty Map but received " ++ jsonToString (.obj amap))]
  else
    if context.matcherIsDefined path then
      compareMapsRules path emap amap context
    else
      let result := mergeResult (.ok ()) (context.matchKeys path emap amap)
      compareMapsGo env cd path amap context emap result
termination_by (sizeOf emap, 2)

/-- The key loop of compare_maps: for every expected key present in the
actual map, recurse at path plus key. -/
def compareMapsGo (env : MatchEnv) (cd : Json → List Nat) (path : List String)
    (amap : List (String × Json)) (context : MatchingContext)
    (rest : List (String × Json)) (result : MResult) : MResult :=
  match rest with
  | [] => result
  | (key, value) :: tail =>
    let p := path ++ [key]
    let result :=
      if containsKey amap key then
        mergeResult result (compare env cd p value (lookupKey amap key) context)
      else result
    compareMapsGo env cd path amap context tail result
termination_by (sizeOf rest, 0)

/-- compare_lists of json.rs (lines 349-383). -/
def compareLists (env : MatchEnv) (cd : Json → List Nat) (path : List String)
    (elist alist : List Json) (context : MatchingContext) : MResult :=
  let spath := joinDot path
  if context.matcherIsDefined path then
    compareListsRules path elist alist context
  else if elist.isEmpty && !alist.isEmpty then
    .error [Mismatch2.bodyMismatch spath (some (jsonToString (.arr elist)))
      (some (jsonToString (.arr alist)))
      ("Expected an empty List but received " ++ jsonToString (.arr alist))]
  else
    let result := compareListContent env cd path elist alist context
    if elist.length ≠ alist.length then
      mergeResult result (.error [Mismatch2.bodyMismatch spath
        (some (jsonToString (.arr elist))) (some (jsonToString (.arr alist)))
        ("Expected a List with " ++ toString elist.length ++
          " elements but received " ++ toString alist.length ++ " elements")])
    else result
termination_by (sizeOf elist, 2)

/-- compare_list_content of json.rs (lines 385-402). -/
def compareListContent (env : MatchEnv) (cd : Json → List Nat) (path : List String)
    (elist alist : List Json) (context : MatchingContext) : MResult :=
  compareListGo env cd path elist alist context elist 0 (.ok ())
termination_by (sizeOf elist, 1)

/-- The index loop of compare_list_content: compare when the actual list
has the index, report a missing element when it does not and no matcher is
defined at the element path. -/
def compareListGo (env : MatchEnv) (cd : Json → List Nat) (path : List String)
    (elist alist : List Json) (context : MatchingContext)
    (rest : List Json) (index : Nat) (result : MResult) : MResult :=
  match rest with
  | [] => result
  | value :: tail =>
    let ps := toString index
    let p := path ++ [ps]
    let result :=
      if index < alist.length then
        mergeResult result (compare env cd p value (alist.getD index .null) context)
      else if !(context.matcherIsDefined p) then
        mergeResult result (.error [Mismatch2.bodyMismatch (joinDot path)
          (some (jsonToString (.arr elist))) (some (jsonToString (.arr alist)))
          ("Expected " ++ jsonToString value ++ " but was missing")])
      else result
    compareListGo env cd path elist alist context tail (index + 1) result
termination_by (sizeOf rest, 0)

end

end PactMatching

namespace LibPact

open PactShared

/-- The DiffConfig enum of libpact_matching (lib.rs lines 245-251). -/
inductive DiffConfig where
  | allowUnexpectedKeys
  | noUnexpectedKeys
deriving DecidableEq

/-- The Mismatch enum of libpact_matching (lib.rs lines 52-116). -/
inductive Mismatch where
  | methodMismatch (expected actual : String)
  | pathMismatch (expected actual mismatch : String)
  | statusMismatch (expected actual : Nat)
  | queryMismatch (parameter expected actual mismatch : String)
  | headerMismatch (key expected actual mismatch : String)
  | bodyTypeMismatch (expected actual : String)
  | bodyMismatch (path : String) (expected actual : Option String) (mismatch : String)
deriving DecidableEq

/-- strip_whitespace of lib.rs collected into a vector: split and trim the
pieces. -/
def stripWhitespaceList (val sep : String) : List String :=
  (splitStr val sep).map trimStr

/-- strip_whitespace of lib.rs collected into a String: the trimmed pieces
are concatenated (FromIterator of string slices for String joins without a
separator). -/
def stripWhitespaceConcat (val sep : String) : String :=
  String.join (stripWhitespaceList val sep)

/-- The rule category attached to a message.
Modelled from the spec: the matchers module of libpact_matching is not
among the sources.  Section 4.1 describes the resolver (is a matcher
defined at a path) and section 4.2 rule evaluation; both are carried as
function fields. -/
structure Matchers where
  isDefined : List String → Bool
  matchValues : List String → String → String → Except String Unit

/-- matcher_is_defined over the optional rule set: no rules, no match. -/
def matcherIsDefined (path : List String) (matchers : Option Matchers) : Bool :=
  match matchers with
  | some m => m.isDefined path
  | none => false

/-- matchers.clone().unwrap() at the call sites, which are all guarded by
matcherIsDefined, so the default is never observed. -/
def unwrapMatchers (m : Option Matchers) : Matchers :=
  m.getD { isDefined := fun _ => false, matchValues := fun _ _ _ => .ok () }

/-- String matching under Matcher::EqualityMatcher.
Modelled from the spec: the Matches impl lives in the matchers module (not
among the sources); Equality is strict value equality (section 4.2) and
the message wording follows the S2 scenario of section 8. -/
def strEqualityMatches (expected actual : String) : Except String Unit :=
  if expected = actual then .ok ()
  else .error ("Expected " ++ q expected ++ " to be equal to " ++ q actual)

/-- match_text of lib.rs (lines 254-260). -/
def matchText (expected actual : String) (mismatches : List Mismatch) : List Mismatch :=
  if expected ≠ actual then
    mismatches ++ [.bodyMismatch "/" (some expected) (some actual)
      ("Expected text " ++ q expected ++ " but received " ++ q actual)]
  else mismatches

/-- match_method of lib.rs (lines 263-267). -/
def matchMethod (expected actual : String) (mismatches : List Mismatch) : List Mismatch :=
  if lowerStr expected ≠ lowerStr actual then
    mismatches ++ [.methodMismatch expected actual]
  else mismatches

/-- match_path of lib.rs (lines 270-283). -/
def matchPath (expected actual : String) (mismatches : List Mismatch)
    (matchers : Option Matchers) : List Mismatch :=
  let path := ["$", "path"]
  let matcherResult :=
    if matcherIsDefined path matchers then
      (unwrapMatchers matchers).matchValues path expected actual
    else strEqualityMatches expected actual
  match matcherResult with
  | .error message => mismatches ++ [.pathMismatch expected actual message]
  | .ok _ => mismatches

/-- Rust Debug rendering of a vector of strings, as the query mismatch
fields format it. -/
def rustDebugStrList (l : List String) : String :=
  "[" ++ String.intercalate ", " (l.map PactMatching.rustDebugStr) ++ "]"

/-- compare_query_parameter_value of lib.rs (lines 285-301). -/
def compareQueryParameterValue (key expected actual : String)
    (mismatches : List Mismatch) (matchers : Option Matchers) : List Mismatch :=
  let path := ["$", "query", key]
  let matcherResult :=
    if matcherIsDefined path matchers then
      (unwrapMatchers matchers).matchValues path expected actual
    else strEqualityMatches expected actual
  match matcherResult with
  | .error message => mismatches ++ [.queryMismatch key expected actual message]
  | .ok _ => mismatches

/-- The indexed loop of compare_query_parameter_values. -/
def compareQueryValuesGo (key : String) (expected actual : List String)
    (matchers : Option Matchers) : List String → Nat → List Mismatch → List Mismatch
  | [], _, mismatches => mismatches
  | val :: tail, index, mismatches =>
    let mismatches :=
      if index < actual.length then
        compareQueryParameterValue key val (actual.getD index "") mismatches matchers
      else
        mismatches ++ [.queryMismatch key (rustDebugStrList expected)
          (rustDebugStrList actual)
          ("Expected query parameter " ++ q key ++ " value " ++ q val ++
            " but was missing")]
    compareQueryValuesGo key expected actual matchers tail (index + 1) mismatches

/-- compare_query_parameter_values of lib.rs (lines 303-315). -/
def compareQueryParameterValues (key : String) (expected actual : List String)
    (mismatches : List Mismatch) (matchers : Option Matchers) : List Mismatch :=
  compareQueryValuesGo key expected actual matchers expected 0 mismatches

/-- match_query_values of lib.rs (lines 317-335). -/
def matchQueryValues (key : String) (expected actual : List String)
    (mismatches : List Mismatch) (matchers : Option Matchers) : List Mismatch :=
  if expected.isEmpty && !actual.isEmpty then
    mismatches ++ [.queryMismatch key (rustDebugStrList expected)
      (rustDebugStrList actual)
      ("Expected an empty parameter list for " ++ q key ++ " but received " ++
        rustDebugStrList actual)]
  else
    let mismatches :=
      if expected.length ≠ actual.length then
        mismatches ++ [.queryMismatch key (rustDebugStrList expected)
          (rustDebugStrList actual)
          ("Expected query parameter " ++ q key ++ " with " ++
            toString expected.length ++ " value(s) but received " ++
            toString actual.length ++ " value(s)")]
      else mismatches
    compareQueryParameterValues key expected actual mismatches matchers

/-- Exact-key lookup in an association-list map (HashMap::get). -/
def lookupExact {α : Type} (map : List (String × α)) (key : String) : Option α :=
  match map.find? (fun kv => kv.1 = key) with
  | some kv => some kv.2
  | none => none

/-- match_query_maps of lib.rs (lines 337-357): report each expected key
against the actual map, then each unexpected actual key. -/
def matchQueryMaps (expected actual : List (String × List String))
    (mismatches : List Mismatch) (matchers : Option Matchers) : List Mismatch :=
  let mismatches := expected.foldl (fun mismatches kv =>
    match lookupExact actual kv.1 with
    | some actualValue => matchQueryValues kv.1 kv.2 actualValue mismatches matchers
    | none => mismatches ++ [.queryMismatch kv.1 (rustDebugStrList kv.2) ""
        ("Expected query parameter " ++ q kv.1 ++ " but was missing")]) mismatches
  actual.foldl (fun mismatches kv =>
    match lookupExact expected kv.1 with
    | some _ => mismatches
    | none => mismatches ++ [.queryMismatch kv.1 "" (rustDebugStrList kv.2)
        ("Unexpected query parameter " ++ q kv.1 ++ " received")]) mismatches

/-- match_query of lib.rs (lines 360-379). -/
def matchQuery (expected actual : Option (List (String × List String)))
    (mismatches : List Mismatch) (matchers : Option Matchers) : List Mismatch :=
  match actual, expected with
  | some aqm, some eqm => matchQueryMaps eqm aqm mismatches matchers
  | some aqm, none => aqm.foldl (fun mismatches kv =>
      mismatches ++ [.queryMismatch kv.1 "" (rustDebugStrList kv.2)
        ("Unexpected query parameter " ++ q kv.1 ++ " received")]) mismatches
  | none, some eqm => eqm.foldl (fun mismatches kv =>
      mismatches ++ [.queryMismatch kv.1 (rustDebugStrList kv.2) ""
        ("Expected query parameter " ++ q kv.1 ++ " but was missing")]) mismatches
  | none, none => mismatches

end LibPact

namespace LibPact

open PactShared

/-- Insert-or-overwrite into an association-list map (HashMap::insert). -/
def insertA (map : List (String × String)) (key value : String) :
    List (String × String) :=
  if (map.find? (fun kv => kv.1 = key)).isSome then
    map.map (fun kv => if kv.1 = key then (key, value) else kv)
  else map ++ [(key, value)]

/-- The fold of parse_charset_parameters over one parameter segment: the
segment is split on the equals sign and both pieces trimmed; indexing
name_value[1] panics (none) when the segment has no equals sign. -/
def parseCharsetGo (acc : List (String × String)) :
    List String → Option (List (String × String))
  | [] => some acc
  | v :: tail =>
    match (splitStr v "=").map trimStr with
    | n :: v2 :: _ => parseCharsetGo (insertA acc n v2) tail
    | _ => none

/-- parse_charset_parameters of lib.rs (lines 381-387). -/
def parseCharsetParameters (parameters : List String) :
    Option (List (String × String)) :=
  parseCharsetGo [] parameters

/-- match_content_type of lib.rs (lines 389-415).  The split_first calls
cannot fail because splitting a string always yields at least one piece;
the parameter parsing can panic, hence the Option result. -/
def matchContentType (expected actual : String) (mismatches : List Mismatch) :
    Option (List Mismatch) :=
  let expectedValues := stripWhitespaceList expected ";"
  let actualValues := stripWhitespaceList actual ";"
  match expectedValues, actualValues with
  | e0 :: eParams, a0 :: aParams =>
    let headerMismatch := Mismatch.headerMismatch "Content-Type" expected actual
      ("Expected header " ++ q "Content-Type" ++ " to have value " ++ q expected ++
        " but was " ++ q actual)
    if e0 = a0 then
      match parseCharsetParameters eParams, parseCharsetParameters aParams with
      | some expectedParameterMap, some actualParameterMap =>
        some (expectedParameterMap.foldl (fun mismatches kv =>
          match lookupExact actualParameterMap kv.1 with
          | some av => if kv.2 ≠ av then mismatches ++ [headerMismatch] else mismatches
          | none => mismatches ++ [headerMismatch]) mismatches)
      | _, _ => none
    else some (mismatches ++ [headerMismatch])
  | _, _ => none

/-- match_header_value of lib.rs (lines 417-437). -/
def matchHeaderValue (key expected actual : String) (mismatches : List Mismatch)
    (matchers : Option Matchers) : Option (List Mismatch) :=
  let path := ["$", "headers", key]
  let expected := stripWhitespaceConcat expected ","
  let actual := stripWhitespaceConcat actual ","
  if matcherIsDefined path matchers then
    match (unwrapMatchers matchers).matchValues path expected actual with
    | .error message => some (mismatches ++ [.headerMismatch key expected actual message])
    | .ok _ => some mismatches
  else if lowerStr key = "content-type" then
    matchContentType expected actual mismatches
  else
    match strEqualityMatches expected actual with
    | .error message => some (mismatches ++ [.headerMismatch key expected actual message])
    | .ok _ => some mismatches

/-- find_entry of lib.rs (lines 439-444): case-insensitive key search, the
found value paired with the key that was looked up. -/
def findEntry (map : List (String × String)) (key : String) :
    Option (String × String) :=
  match map.find? (fun kv => lowerStr kv.1 = lowerStr key) with
  | some kv => some (key, kv.2)
  | none => none

/-- The loop of match_header_maps over the expected entries. -/
def matchHeaderMapsGo (actual : List (String × String)) (matchers : Option Matchers) :
    List (String × String) → List Mismatch → Option (List Mismatch)
  | [], mismatches => some mismatches
  | (key, value) :: tail, mismatches =>
    match findEntry actual key with
    | some kv =>
      match matchHeaderValue key value kv.2 mismatches matchers with
      | some mismatches => matchHeaderMapsGo actual matchers tail mismatches
      | none => none
    | none =>
      matchHeaderMapsGo actual matchers tail
        (mismatches ++ [.headerMismatch key (PactMatching.rustDebugStr value) ""
          ("Expected header " ++ q key ++ " but was missing")])

/-- match_header_maps of lib.rs (lines 446-457). -/
def matchHeaderMaps (expected actual : List (String × String))
    (mismatches : List Mismatch) (matchers : Option Matchers) :
    Option (List Mismatch) :=
  matchHeaderMapsGo actual matchers expected mismatches

/-- match_headers of lib.rs (lines 460-474). -/
def matchHeaders (expected actual : Option (List (String × String)))
    (mismatches : List Mismatch) (matchers : Option Matchers) :
    Option (List Mismatch) :=
  match actual, expected with
  | some aqm, some eqm => matchHeaderMaps eqm aqm mismatches matchers
  | some _, none => some mismatches
  | none, some eqm => some (eqm.foldl (fun mismatches kv =>
      mismatches ++ [.headerMismatch kv.1 (PactMatching.rustDebugStr kv.2) ""
        ("Expected header " ++ q kv.1 ++ " but was missing")]) mismatches)
  | none, none => some mismatches

/-- The body of a message.
Modelled from the spec: OptionalBody lives in the old models module (not
among the sources); section 3 gives the three states Missing, Null and
Present with its content. -/
inductive OptionalBody where
  | missing
  | null
  | present (value : String)
deriving DecidableEq

/-- The text of a body.
Modelled from the spec: value() of OptionalBody; Present carries its
content and the contentless states render as the empty string. -/
def OptionalBody.value : OptionalBody → String
  | .present s => s
  | _ => ""

/-- is_present() of OptionalBody. -/
def OptionalBody.isPresent : OptionalBody → Bool
  | .present _ => true
  | _ => false

/-- The view of an HttpPart that match_body consumes: its headers (for the
content type) and its body. -/
structure PartView where
  headers : Option (List (String × String))
  body : OptionalBody

/-- mimetype() of the HttpPart trait.
Modelled from the spec: the trait lives in the old models module (not
among the sources); section 4.6 chooses the body matcher by the expected
content type, the media-type component of the Content-Type header, with
text/plain as the default. -/
def mimetype (p : PartView) : String :=
  match p.headers with
  | some hs =>
    match hs.find? (fun kv => lowerStr kv.1 = "content-type") with
    | some kv =>
      match stripWhitespaceList kv.2 ";" with
      | v :: _ => v
      | [] => "text/plain"
    | none => "text/plain"
  | none => "text/plain"

/-- The body matchers that compare_bodies dispatches to.
Modelled from the spec: json.rs and xml.rs of libpact_matching are not
among the sources.  Sections 7 and 9 fix that a structural matcher only
appends to the mismatch list (merge(a, b) = a ++ b, Ok-is-empty), so each
matcher is carried as a function returning the mismatches it appends. -/
structure BodyMatchEnv where
  jsonMatch : String → String → DiffConfig → Option Matchers → List Mismatch
  xmlMatch : String → String → DiffConfig → Option Matchers → List Mismatch

/-- Unanchored match of the BODY_MATCHERS regexes, which have the shape
head .* tail with literal head and tail: the head occurs and the tail
occurs after it.  (The regex dot does not match a newline; no media type
contains one.) -/
def mimeRegexMatch (head tail s : String) : Bool :=
  match splitStr s head with
  | [] => false
  | [_] => false
  | _ :: rest => containsSub (String.intercalate head rest) tail

/-- compare_bodies of lib.rs (lines 476-482): first matching entry of
BODY_MATCHERS (application/.*json then application/.*xml), else the plain
text matcher. -/
def compareBodies (env : BodyMatchEnv) (mimetypeS expected actual : String)
    (config : DiffConfig) (mismatches : List Mismatch)
    (matchers : Option Matchers) : List Mismatch :=
  if mimeRegexMatch "application/" "json" mimetypeS then
    mismatches ++ env.jsonMatch expected actual config matchers
  else if mimeRegexMatch "application/" "xml" mimetypeS then
    mismatches ++ env.xmlMatch expected actual config matchers
  else matchText expected actual mismatches

/-- match_body of lib.rs (lines 485-510). -/
def matchBody (env : BodyMatchEnv) (expected actual : PartView)
    (config : DiffConfig) (mismatches : List Mismatch)
    (matchers : Option Matchers) : List Mismatch :=
  if mimetype expected = mimetype actual then
    match expected.body, actual.body with
    | .missing, _ => mismatches
    | .null, .present b =>
      mismatches ++ [.bodyMismatch "/" none (some b)
        ("Expected empty body but received " ++ q b)]
    | .null, _ => mismatches
    | e, .missing =>
      mismatches ++ [.bodyMismatch "/" (some e.value) none
        ("Expected body " ++ q e.value ++ " but was missing")]
    | _, _ =>
      compareBodies env (mimetype expected) expected.body.value actual.body.value
        config mismatches matchers
  else if expected.body.isPresent then
    mismatches ++ [.bodyTypeMismatch (mimetype expected) (mimetype actual)]
  else mismatches

/-- match_status of lib.rs (lines 527-531). -/
def matchStatus (expected actual : Nat) (mismatches : List Mismatch) : List Mismatch :=
  if expected ≠ actual then mismatches ++ [.statusMismatch expected actual]
  else mismatches

/-- The Request model as consumed by match_request.
Modelled from the spec: the models module is not among the sources;
section 6 lists the fields of an HttpPart, and the matching rules ride on
the expected message. -/
structure Request where
  method : String
  path : String
  query : Option (List (String × List String))
  headers : Option (List (String × String))
  body : OptionalBody
  matchingRules : Option Matchers

/-- The part view of a request. -/
def Request.toView (r : Request) : PartView := { headers := r.headers, body := r.body }

/-- The Response model as consumed by match_response.
Modelled from the spec, as Request. -/
structure Response where
  status : Nat
  headers : Option (List (String × String))
  body : OptionalBody
  matchingRules : Option Matchers

/-- The part view of a response. -/
def Response.toView (r : Response) : PartView := { headers := r.headers, body := r.body }

/-- match_request of lib.rs (lines 513-524): method, path, body (under
NoUnexpectedKeys), query, headers, all into one accumulator. -/
def matchRequest (env : BodyMatchEnv) (expected actual : Request) :
    Option (List Mismatch) :=
  let mismatches : List Mismatch := []
  let mismatches := matchMethod expected.method actual.method mismatches
  let mismatches := matchPath expected.path actual.path mismatches expected.matchingRules
  let mismatches := matchBody env expected.toView actual.toView
    DiffConfig.noUnexpectedKeys mismatches expected.matchingRules
  let mismatches := matchQuery expected.query actual.query mismatches expected.matchingRules
  matchHeaders expected.headers actual.headers mismatches expected.matchingRules

/-- match_response of lib.rs (lines 534-543): body (under
AllowUnexpectedKeys), status, headers, all into one accumulator. -/
def matchResponse (env : BodyMatchEnv) (expected actual : Response) :
    Option (List Mismatch) :=
  let mismatches : List Mismatch := []
  let mismatches := matchBody env expected.toView actual.toView
    DiffConfig.allowUnexpectedKeys mismatches expected.matchingRules
  let mismatches := matchStatus expected.status actual.status mismatches
  matchHeaders expected.headers actual.headers mismatches expected.matchingRules

end LibPact

section Claims

open PactShared PactMatching LibPact

/-- A concrete external environment for witnesses: no regex compiles, no
datetime validates, no byte string decodes. -/
def env0 : MatchEnv :=
  { regexCompile := fun _ => none
    regexCompileErr := fun _ => "err"
    validateDatetime := fun _ _ => .ok ()
    contentTypeMatch := fun _ _ => .ok ()
    utf8Decode := fun _ => none
    utf8ErrShow := fun _ => "err" }

/-- C7: numeric kinds are never coerced across integer and decimal: for
every u64 expected and f64 actual (and vice versa), the Equality rule and
the whole Type family return Err, whatever the values. -/
theorem c7_integer_decimal_never_coerced (env : MatchEnv) (e : Nat) (a : F64)
    (c : Bool) (n m : Nat) :
    mIsOk (u64F64MatchesWith env e a .equality c) = false ∧
    mIsOk (u64F64MatchesWith env e a .type c) = false ∧
    mIsOk (u64F64MatchesWith env e a (.minType n) c) = false ∧
    mIsOk (u64F64MatchesWith env e a (.maxType m) c) = false ∧
    mIsOk (u64F64MatchesWith env e a (.minMaxType n m) c) = false ∧
    mIsOk (f64U64MatchesWith env a e .equality c) = false ∧
    mIsOk (f64U64MatchesWith env a e .type c) = false ∧
    mIsOk (f64U64MatchesWith env a e (.minType n) c) = false ∧
    mIsOk (f64U64MatchesWith env a e (.maxType m) c) = false ∧
    mIsOk (f64U64MatchesWith env a e (.minMaxType n m) c) = false :=
  ⟨rfl, rfl, rfl, rfl, rfl, rfl, rfl, rfl, rfl, rfl⟩

/-- C4: the byte-sequence matcher is claimed total, but under the Equality
rule two unequal sequences shorter than ten bytes panic while the error
message splits off the first ten bytes; equal sequences of any length do
return Ok. -/
theorem c4_bytes_equality_short_unequal_panics (env : MatchEnv) (c : Bool) :
    bytesMatchesWith env [1] [2] .equality c = none ∧
    ∀ b : List Nat, bytesMatchesWith env b b .equality c = some (.ok ()) := by
  refine ⟨rfl, fun b => ?_⟩
  simp [bytesMatchesWith]

/-- C6: under the Integer rule the string matcher parses the actual string
only as u64, so the negative integer string -5 is rejected, while the JSON
matcher accepts the negative integer -5 under the same rule. -/
theorem c6_integer_rule_rejects_negative_string (env : MatchEnv)
    (cd : Json → List Nat) (c : Bool) :
    strMatchesWith env "100" "-5" .integer c =
      .error ("Expected " ++ q "-5" ++ " to match an integer number") ∧
    jsonMatchesWith env cd (.str "100") (.num (.negInt (-5))) .integer c = .ok () := by
  constructor
  · rfl
  · rfl

end Claims

section Claims

open PactShared PactMatching LibPact

/-- C2: for a selected non-empty rule list, match_values returns Ok under
AND iff every rule passes and under OR iff some rule passes; any returned
error set is exactly the failing rules' messages; an empty selected rule
list yields the no-matcher-found error for the path. -/
theorem c2_match_values_composition {α β : Type}
    (mw : α → β → MatchingRule → Bool → MResultS) (path : List String)
    (ctx : MatchingContext) (e : α) (a : β) :
    ((ctx.selectBestMatcher path).rules = [] →
      matchValues mw path ctx e a =
        .error ["No matcher found for path " ++ q (String.intercalate "." path)]) ∧
    ((ctx.selectBestMatcher path).rules ≠ [] →
      (ctx.selectBestMatcher path).ruleLogic = .and →
      (matchValues mw path ctx e a = .ok () ↔
        ∀ res ∈ (ctx.selectBestMatcher path).rules.map
          (fun rule => mw e a rule (ctx.selectBestMatcher path).cascaded),
          mIsOk res = true)) ∧
    ((ctx.selectBestMatcher path).rules ≠ [] →
      (ctx.selectBestMatcher path).ruleLogic = .or →
      (matchValues mw path ctx e a = .ok () ↔
        ∃ res ∈ (ctx.selectBestMatcher path).rules.map
          (fun rule => mw e a rule (ctx.selectBestMatcher path).cascaded),
          mIsOk res = true)) ∧
    ((ctx.selectBestMatcher path).rules ≠ [] →
      ∀ msgs, matchValues mw path ctx e a = .error msgs →
        msgs = ((ctx.selectBestMatcher path).rules.map
          (fun rule => mw e a rule (ctx.selectBestMatcher path).cascaded)).filterMap
            mErrMsg) := by
  rcases hsel : ctx.selectBestMatcher path with ⟨rules, logic, casc⟩
  simp only [matchValues, hsel]
  refine ⟨?_, ?_, ?_, ?_⟩
  · intro h
    subst h
    simp
  · intro hne hand
    subst hand
    simp only [List.isEmpty_iff, if_neg hne]
    by_cases hall : ((rules.map fun rule => mw e a rule casc).all mIsOk) = true
    · simp only [if_pos hall]
      simp only [List.all_eq_true] at hall
      simpa using hall
    · simp only [if_neg hall]
      simp only [List.all_eq_true] at hall
      simpa using hall
  · intro hne hor
    subst hor
    simp only [List.isEmpty_iff, if_neg hne]
    by_cases hany : ((rules.map fun rule => mw e a rule casc).any mIsOk) = true
    · simp only [if_pos hany]
      simp only [List.any_eq_true] at hany
      simpa using hany
    · simp only [if_neg hany]
      simp only [List.any_eq_true] at hany
      simpa using hany
  · intro hne msgs h
    revert h
    simp only [List.isEmpty_iff, if_neg hne]
    cases logic
    · by_cases hall : ((rules.map fun rule => mw e a rule casc).all mIsOk) = true
      · simp only [List.all_eq_true] at hall
        intro h
        rw [if_pos (by simpa using hall)] at h
        cases h
      · simp only [if_neg hall]
        intro h
        exact (Except.error.injEq _ _ ▸ h).symm
    · by_cases hany : ((rules.map fun rule => mw e a rule casc).any mIsOk) = true
      · intro h
        rw [if_pos hany] at h
        cases h
      · simp only [if_neg hany]
        intro h
        exact (Except.error.injEq _ _ ▸ h).symm

/-- A context whose best matcher at every path is an AND list of Equality
and Include, for the C2 witness. -/
def ctxAnd : MatchingContext :=
  { config := .allowUnexpectedKeys
    matcherIsDefined := fun _ => true
    selectBestMatcher := fun _ =>
      { rules := [.equality, .includes "0"], ruleLogic := .and, cascaded := false }
    matchKeys := fun _ _ _ => .ok ()
    compareListsWithRule := fun _ _ _ _ => .ok ()
    compareMapsWithRule := fun _ _ _ _ => .ok () }

/-- A context whose best matcher at every path is the empty rule list, for
the C2 witness. -/
def ctxEmpty : MatchingContext :=
  { config := .allowUnexpectedKeys
    matcherIsDefined := fun _ => true
    selectBestMatcher := fun _ =>
      { rules := [], ruleLogic := .and, cascaded := false }
    matchKeys := fun _ _ _ => .ok ()
    compareListsWithRule := fun _ _ _ _ => .ok ()
    compareMapsWithRule := fun _ _ _ _ => .ok () }

/-- Witness for C2 at concrete inputs: two passing AND rules give Ok and an
empty rule list gives the no-matcher error. -/
theorem c2_match_values_composition_witness :
    matchValues (strMatchesWith env0) ["$", "a"] ctxAnd "100" "100" = .ok () ∧
    matchValues (strMatchesWith env0) ["$", "a"] ctxEmpty "100" "100" =
      .error ["No matcher found for path " ++ q (String.intercalate "." ["$", "a"])] := by
  constructor
  · exact ((c2_match_values_composition (strMatchesWith env0) ["$", "a"] ctxAnd
      "100" "100").2.1 (by decide) rfl).mpr (by decide)
  · exact (c2_match_values_composition (strMatchesWith env0) ["$", "a"] ctxEmpty
      "100" "100").1 rfl

end Claims

section Claims

open PactShared PactMatching LibPact

/-- C10: match_headers is claimed total, but when both Content-Type values
share the media type and carry a parameter segment without an equals sign,
parse_charset_parameters indexes past the end of the split and panics. -/
theorem c10_match_headers_charset_panic :
    matchHeaders (some [("Content-Type", "text/plain; charset")])
      (some [("Content-Type", "text/plain; charset")]) [] none = none := by
  rfl

/-- A body-matcher environment whose JSON and XML matchers append nothing,
for concrete instantiations. -/
def envB0 : BodyMatchEnv :=
  { jsonMatch := fun _ _ _ _ => []
    xmlMatch := fun _ _ _ _ => [] }

/-- C3 counterexample: with equal content types, an expected Present body
against a Null actual body is claimed to be a no-op, but match_body falls
into the catch-all arm, dispatches the text body matcher against the empty
rendering of the Null body, and emits a BodyMismatch. -/
theorem c3_present_null_not_noop :
    matchBody envB0 { headers := none, body := .present "a" }
      { headers := none, body := .null } .noUnexpectedKeys [] none ≠ [] := by
  decide

/-- C3 as amended: the body presence table of match_body, with the
(Present, Null) cell dispatching to the body matcher against the empty
rendering of the Null body instead of being a no-op. -/
theorem c3_body_presence_table (env : BodyMatchEnv)
    (eh ah : Option (List (String × String))) (eb ab : OptionalBody)
    (config : DiffConfig) (acc : List Mismatch) (matchers : Option Matchers) :
    (mimetype ⟨eh, eb⟩ = mimetype ⟨ah, ab⟩ →
      ((eb = .missing →
        matchBody env ⟨eh, eb⟩ ⟨ah, ab⟩ config acc matchers = acc) ∧
       (∀ b, eb = .null → ab = .present b →
        matchBody env ⟨eh, eb⟩ ⟨ah, ab⟩ config acc matchers =
          acc ++ [.bodyMismatch "/" none (some b)
            ("Expected empty body but received " ++ q b)]) ∧
       (eb = .null → ab = .missing ∨ ab = .null →
        matchBody env ⟨eh, eb⟩ ⟨ah, ab⟩ config acc matchers = acc) ∧
       (∀ s, eb = .present s → ab = .missing →
        matchBody env ⟨eh, eb⟩ ⟨ah, ab⟩ config acc matchers =
          acc ++ [.bodyMismatch "/" (some s) none
            ("Expected body " ++ q s ++ " but was missing")]) ∧
       (∀ s, eb = .present s → ab = .null ∨ (∃ b, ab = .present b) →
        matchBody env ⟨eh, eb⟩ ⟨ah, ab⟩ config acc matchers =
          compareBodies env (mimetype ⟨eh, eb⟩) s ab.value config acc matchers))) ∧
    (mimetype ⟨eh, eb⟩ ≠ mimetype ⟨ah, ab⟩ →
      ((eb.isPresent = true →
        matchBody env ⟨eh, eb⟩ ⟨ah, ab⟩ config acc matchers =
          acc ++ [.bodyTypeMismatch (mimetype ⟨eh, eb⟩) (mimetype ⟨ah, ab⟩)]) ∧
       (eb.isPresent = false →
        matchBody env ⟨eh, eb⟩ ⟨ah, ab⟩ config acc matchers = acc))) := by
  constructor
  · intro hm
    refine ⟨?_, ?_, ?_, ?_, ?_⟩
    · rintro rfl
      simp [matchBody, hm]
    · rintro b rfl rfl
      simp [matchBody, hm]
    · rintro rfl (rfl | rfl) <;> simp [matchBody, hm]
    · rintro s rfl rfl
      simp [matchBody, hm, OptionalBody.value]
    · rintro s rfl (rfl | ⟨b, rfl⟩) <;>
        simp [matchBody, hm, OptionalBody.value]
  · intro hm
    constructor
    · intro hp
      cases eb <;> simp_all [matchBody, OptionalBody.isPresent]
    · intro hp
      cases eb <;> simp_all [matchBody, OptionalBody.isPresent]

/-- Witness for C3 at concrete inputs: a Present text body against a Null
actual body dispatches the text matcher with the empty actual value. -/
theorem c3_body_presence_table_witness :
    matchBody envB0 { headers := none, body := .present "a" }
      { headers := none, body := .null } .noUnexpectedKeys [] none =
      compareBodies envB0 "text/plain" "a" "" .noUnexpectedKeys [] none :=
  ((c3_body_presence_table envB0 none none (.present "a") .null
    .noUnexpectedKeys [] none).1 rfl).2.2.2.2 "a" rfl (Or.inl rfl)

end Claims

namespace LibPact

open PactShared

/-- A fold whose step only appends commutes with a preloaded accumulator. -/
theorem foldl_acc {α : Type} (f : List Mismatch → α → List Mismatch)
    (hf : ∀ ms x, f ms x = ms ++ f [] x) :
    ∀ (l : List α) (ms : List Mismatch), l.foldl f ms = ms ++ l.foldl f []
  | [], ms => by simp
  | x :: t, ms => by
    simp only [List.foldl_cons]
    rw [foldl_acc f hf t (f ms x), foldl_acc f hf t (f [] x), hf ms x,
      List.append_assoc]

/-- match_text only appends to the accumulator. -/
theorem matchText_acc (e a : String) (ms : List Mismatch) :
    matchText e a ms = ms ++ matchText e a [] := by
  by_cases h : e ≠ a <;> simp [matchText, h]

/-- match_method only appends to the accumulator. -/
theorem matchMethod_acc (e a : String) (ms : List Mismatch) :
    matchMethod e a ms = ms ++ matchMethod e a [] := by
  by_cases h : lowerStr e ≠ lowerStr a <;> simp [matchMethod, h]

/-- match_status only appends to the accumulator. -/
theorem matchStatus_acc (e a : Nat) (ms : List Mismatch) :
    matchStatus e a ms = ms ++ matchStatus e a [] := by
  by_cases h : e ≠ a <;> simp [matchStatus, h]

/-- match_path only appends to the accumulator. -/
theorem matchPath_acc (e a : String) (ms : List Mismatch) (m : Option Matchers) :
    matchPath e a ms m = ms ++ matchPath e a [] m := by
  unfold matchPath
  by_cases h : matcherIsDefined ["$", "path"] m = true
  · simp only [if_pos h]
    cases (unwrapMatchers m).matchValues ["$", "path"] e a <;> simp
  · simp only [if_neg h]
    cases strEqualityMatches e a <;> simp

/-- compare_query_parameter_value only appends to the accumulator. -/
theorem compareQueryParameterValue_acc (key e a : String) (ms : List Mismatch)
    (m : Option Matchers) :
    compareQueryParameterValue key e a ms m =
      ms ++ compareQueryParameterValue key e a [] m := by
  unfold compareQueryParameterValue
  by_cases h : matcherIsDefined ["$", "query", key] m = true
  · simp only [if_pos h]
    cases (unwrapMatchers m).matchValues ["$", "query", key] e a <;> simp
  · simp only [if_neg h]
    cases strEqualityMatches e a <;> simp

/-- The loop of compare_query_parameter_values only appends. -/
theorem compareQueryValuesGo_acc (key : String) (e a : List String)
    (m : Option Matchers) (rest : List String) :
    ∀ (index : Nat) (ms : List Mismatch),
      compareQueryValuesGo key e a m rest index ms =
        ms ++ compareQueryValuesGo key e a m rest index [] := by
  induction rest with
  | nil => intro index ms; simp [compareQueryValuesGo]
  | cons v t ih =>
    intro index ms
    simp only [compareQueryValuesGo]
    by_cases h : index < a.length
    · simp only [if_pos h]
      rw [ih (index + 1) (compareQueryParameterValue key v (a.getD index "") ms m),
        ih (index + 1) (compareQueryParameterValue key v (a.getD index "") [] m),
        compareQueryParameterValue_acc, List.append_assoc]
    · simp only [if_neg h]
      rw [ih (index + 1) (ms ++ _), ih (index + 1) ([] ++ _), List.append_assoc]
      simp

/-- match_query_values only appends to the accumulator. -/
theorem matchQueryValues_acc (key : String) (e a : List String)
    (ms : List Mismatch) (m : Option Matchers) :
    matchQueryValues key e a ms m = ms ++ matchQueryValues key e a [] m := by
  unfold matchQueryValues
  by_cases h : e.isEmpty && !a.isEmpty
  · simp [h]
  · simp only [h, Bool.false_eq_true, if_false]
    by_cases hl : e.length ≠ a.length
    · simp only [if_pos hl]
      unfold compareQueryParameterValues
      rw [compareQueryValuesGo_acc, compareQueryValuesGo_acc key e a m e 0 ([] ++ _),
        List.append_assoc]
      simp
    · simp only [if_neg hl]
      unfold compareQueryParameterValues
      rw [compareQueryValuesGo_acc]

/-- match_query_maps only appends to the accumulator. -/
theorem matchQueryMaps_acc (e a : List (String × List String))
    (ms : List Mismatch) (m : Option Matchers) :
    matchQueryMaps e a ms m = ms ++ matchQueryMaps e a [] m := by
  unfold matchQueryMaps
  have hf1 : ∀ (ms : List Mismatch) (kv : String × List String),
      (match lookupExact a kv.1 with
        | some actualValue => matchQueryValues kv.1 kv.2 actualValue ms m
        | none => ms ++ [.queryMismatch kv.1 (rustDebugStrList kv.2) ""
            ("Expected query parameter " ++ q kv.1 ++ " but was missing")]) =
      ms ++ (match lookupExact a kv.1 with
        | some actualValue => matchQueryValues kv.1 kv.2 actualValue [] m
        | none => [] ++ [.queryMismatch kv.1 (rustDebugStrList kv.2) ""
            ("Expected query parameter " ++ q kv.1 ++ " but was missing")]) := by
    intro ms kv
    cases lookupExact a kv.1
    · simp
    · simpa using matchQueryValues_acc kv.1 kv.2 _ ms m
  have hf2 : ∀ (ms : List Mismatch) (kv : String × List String),
      (match lookupExact e kv.1 with
        | some _ => ms
        | none => ms ++ [.queryMismatch kv.1 "" (rustDebugStrList kv.2)
            ("Unexpected query parameter " ++ q kv.1 ++ " received")]) =
      ms ++ (match lookupExact e kv.1 with
        | some _ => ([] : List Mismatch)
        | none => [] ++ [.queryMismatch kv.1 "" (rustDebugStrList kv.2)
            ("Unexpected query parameter " ++ q kv.1 ++ " received")]) := by
    intro ms kv
    cases lookupExact e kv.1 <;> simp
  rw [foldl_acc _ hf1 e ms, foldl_acc _ hf2 a, foldl_acc _ hf2 a (e.foldl _ []),
    List.append_assoc]

/-- match_query only appends to the accumulator. -/
theorem matchQuery_acc (e a : Option (List (String × List String)))
    (ms : List Mismatch) (m : Option Matchers) :
    matchQuery e a ms m = ms ++ matchQuery e a [] m := by
  unfold matchQuery
  cases a <;> cases e
  · simp
  · rename_i eqm
    exact foldl_acc _ (by intro ms kv; simp) eqm ms
  · rename_i aqm
    exact foldl_acc _ (by intro ms kv; simp) aqm ms
  · exact matchQueryMaps_acc _ _ _ _

end LibPact

namespace LibPact

open PactShared

/-- match_content_type only appends to the accumulator (in the Option
that models the possible panic). -/
theorem matchContentType_acc (e a : String) (ms : List Mismatch) :
    matchContentType e a ms = (matchContentType e a []).map (ms ++ ·) := by
  unfold matchContentType
  cases hE : stripWhitespaceList e ";" with
  | nil => simp
  | cons e0 eParams =>
    cases hA : stripWhitespaceList a ";" with
    | nil => simp
    | cons a0 aParams =>
      by_cases h : e0 = a0
      · simp only [if_pos h]
        cases parseCharsetParameters eParams <;>
          cases parseCharsetParameters aParams <;> simp
        rename_i em am
        exact foldl_acc _ (by
          intro ms kv
          cases lookupExact am kv.1
          · simp
          · rename_i av
            by_cases hv : kv.2 = av <;> simp [hv]) em ms
      · simp [if_neg h]

/-- match_header_value only appends to the accumulator. -/
theorem matchHeaderValue_acc (key e a : String) (ms : List Mismatch)
    (m : Option Matchers) :
    matchHeaderValue key e a ms m = (matchHeaderValue key e a [] m).map (ms ++ ·) := by
  unfold matchHeaderValue
  by_cases h : matcherIsDefined ["$", "headers", key] m = true
  · simp only [if_pos h]
    cases (unwrapMatchers m).matchValues ["$", "headers", key]
      (stripWhitespaceConcat e ",") (stripWhitespaceConcat a ",") <;> simp
  · simp only [if_neg h]
    by_cases hct : lowerStr key = "content-type"
    · simp only [if_pos hct]
      exact matchContentType_acc _ _ ms
    · simp only [if_neg hct]
      cases strEqualityMatches (stripWhitespaceConcat e ",")
        (stripWhitespaceConcat a ",") <;> simp

/-- The expected-entry loop of match_header_maps only appends. -/
theorem matchHeaderMapsGo_acc (a : List (String × String)) (m : Option Matchers) :
    ∀ (rest : List (String × String)) (ms : List Mismatch),
      matchHeaderMapsGo a m rest ms = (matchHeaderMapsGo a m rest []).map (ms ++ ·) := by
  intro rest
  induction rest with
  | nil => intro ms; simp [matchHeaderMapsGo]
  | cons kv t ih =>
    intro ms
    obtain ⟨key, value⟩ := kv
    simp only [matchHeaderMapsGo]
    cases findEntry a key with
    | none =>
      rw [ih (ms ++ _), ih ([] ++ _)]
      cases matchHeaderMapsGo a m t [] <;> simp
    | some kv2 =>
      dsimp only
      rw [matchHeaderValue_acc key value kv2.2 ms m,
        matchHeaderValue_acc key value kv2.2 [] m]
      cases matchHeaderValue key value kv2.2 [] m with
      | none => rfl
      | some v =>
        dsimp only [Option.map_some']
        rw [ih (ms ++ ([] ++ v)), ih ([] ++ v)]
        cases matchHeaderMapsGo a m t [] <;> simp

/-- match_headers only appends to the accumulator. -/
theorem matchHeaders_acc (e a : Option (List (String × String)))
    (ms : List Mismatch) (m : Option Matchers) :
    matchHeaders e a ms m = (matchHeaders e a [] m).map (ms ++ ·) := by
  unfold matchHeaders
  cases a <;> cases e
  · simp
  · rename_i eqm
    simpa using foldl_acc _ (by intro ms kv; simp) eqm ms
  · simp
  · rename_i aqm eqm
    exact matchHeaderMapsGo_acc aqm m eqm ms

/-- compare_bodies only appends to the accumulator. -/
theorem compareBodies_acc (env : BodyMatchEnv) (mt e a : String)
    (config : DiffConfig) (ms : List Mismatch) (m : Option Matchers) :
    compareBodies env mt e a config ms m = ms ++ compareBodies env mt e a config [] m := by
  unfold compareBodies
  by_cases h1 : mimeRegexMatch "application/" "json" mt = true
  · simp [h1]
  · simp only [if_neg h1]
    by_cases h2 : mimeRegexMatch "application/" "xml" mt = true
    · simp [h2]
    · simp only [if_neg h2]
      exact matchText_acc e a ms

/-- match_body only appends to the accumulator. -/
theorem matchBody_acc (env : BodyMatchEnv) (e a : PartView) (config : DiffConfig)
    (ms : List Mismatch) (m : Option Matchers) :
    matchBody env e a config ms m = ms ++ matchBody env e a config [] m := by
  unfold matchBody
  by_cases h : mimetype e = mimetype a
  · simp only [if_pos h]
    cases e.body <;> cases a.body <;>
      first
        | exact compareBodies_acc env _ _ _ config ms m
        | simp
  · simp only [if_neg h]
    by_cases hp : e.body.isPresent = true <;> simp [hp]

end LibPact

section Claims

open PactShared PactMatching LibPact

/-- C1: match_request runs method, path, body (under NoUnexpectedKeys),
query, headers in that order and match_response runs body (under
AllowUnexpectedKeys), status, headers; every step appends its own
mismatches to the one returned list, so no step's mismatches prevent a
later step from running.  (The hypotheses say the header step returns,
that is, does not hit the content-type parameter panic.) -/
theorem c1_orchestration_order (env : BodyMatchEnv) (ereq areq : Request)
    (eres ares : Response) (hreq hres : List Mismatch) :
    (matchHeaders ereq.headers areq.headers [] ereq.matchingRules = some hreq →
      matchRequest env ereq areq = some (
        matchMethod ereq.method areq.method [] ++
        matchPath ereq.path areq.path [] ereq.matchingRules ++
        matchBody env ereq.toView areq.toView .noUnexpectedKeys [] ereq.matchingRules ++
        matchQuery ereq.query areq.query [] ereq.matchingRules ++ hreq)) ∧
    (matchHeaders eres.headers ares.headers [] eres.matchingRules = some hres →
      matchResponse env eres ares = some (
        matchBody env eres.toView ares.toView .allowUnexpectedKeys [] eres.matchingRules ++
        matchStatus eres.status ares.status [] ++ hres)) := by
  constructor
  · intro hH
    unfold matchRequest
    rw [matchHeaders_acc, hH, matchQuery_acc, matchBody_acc, matchPath_acc]
    simp [List.append_assoc]
  · intro hH
    unfold matchResponse
    rw [matchHeaders_acc, hH, matchStatus_acc, matchBody_acc]
    simp [List.append_assoc]

/-- A concrete request for the C1 witness. -/
def reqW1 : Request :=
  { method := "GET", path := "/a", query := none, headers := none,
    body := .missing, matchingRules := none }

/-- A second concrete request for the C1 witness, differing in method and
path. -/
def reqW2 : Request :=
  { method := "POST", path := "/b", query := none, headers := none,
    body := .missing, matchingRules := none }

/-- A concrete response for the C1 witness. -/
def resW1 : Response :=
  { status := 200, headers := none, body := .missing, matchingRules := none }

/-- A second concrete response for the C1 witness, differing in status. -/
def resW2 : Response :=
  { status := 404, headers := none, body := .missing, matchingRules := none }

/-- Witness for C1 at concrete inputs: both orchestration equations hold
with the header step returning. -/
theorem c1_orchestration_order_witness :
    matchRequest envB0 reqW1 reqW2 = some (
      matchMethod "GET" "POST" [] ++
      matchPath "/a" "/b" [] none ++
      matchBody envB0 reqW1.toView reqW2.toView .noUnexpectedKeys [] none ++
      matchQuery none none [] none ++ []) ∧
    matchResponse envB0 resW1 resW2 = some (
      matchBody envB0 resW1.toView resW2.toView .allowUnexpectedKeys [] none ++
      matchStatus 200 404 [] ++ []) :=
  ⟨(c1_orchestration_order envB0 reqW1 reqW2 resW1 resW2 [] []).1 rfl,
   (c1_orchestration_order envB0 reqW1 reqW2 resW1 resW2 [] []).2 rfl⟩

end Claims

namespace LibPact

open PactShared

/-- A fold whose step leaves the accumulator unchanged on every list
element is the identity. -/
theorem foldl_id {α β : Type} (step : β → α → β) (l : List α) (acc : β)
    (h : ∀ (ms : β) (kv : α), kv ∈ l → step ms kv = ms) : l.foldl step acc = acc := by
  induction l generalizing acc with
  | nil => rfl
  | cons x t ih =>
    rw [List.foldl_cons, h acc x (by simp)]
    exact ih acc (fun ms kv hm => h ms kv (by simp [hm]))

/-- In a map with pairwise distinct keys, looking up the key of a member
returns its value. -/
theorem lookupExact_of_mem {α : Type} (pm : List (String × α))
    (hd : pm.Pairwise (fun x y => x.1 ≠ y.1)) :
    ∀ kv ∈ pm, lookupExact pm kv.1 = some kv.2 := by
  induction pm with
  | nil => intro kv hm; cases hm
  | cons hd0 t ih =>
    intro kv hm
    rcases List.mem_cons.mp hm with rfl | hmt
    · simp [lookupExact]
    · have hne : hd0.1 ≠ kv.1 := (List.pairwise_cons.mp hd).1 kv hmt
      have ht := ih (List.pairwise_cons.mp hd).2 kv hmt
      unfold lookupExact at ht ⊢
      rw [List.find?_cons_of_neg _ (by simpa using hne)]
      exact ht

end LibPact

namespace LibPact

open PactShared

/-- Well-formedness of a (already comma-normalized) Content-Type header
value: its parameter segments parse (each contains an equals sign) into a
map with pairwise distinct keys. -/
def ctValueWf (v : String) : Prop :=
  ∃ e0 eps pm, stripWhitespaceList v ";" = e0 :: eps ∧
    parseCharsetParameters eps = some pm ∧
    pm.Pairwise (fun x y => x.1 ≠ y.1)

/-- Comparing a well-formed Content-Type value with itself emits nothing. -/
theorem matchContentType_self (v : String) (acc : List Mismatch)
    (hwf : ctValueWf v) : matchContentType v v acc = some acc := by
  obtain ⟨e0, eps, pm, h1, h2, h3⟩ := hwf
  unfold matchContentType
  rw [h1]
  dsimp only
  rw [if_pos rfl, h2]
  dsimp only
  refine congrArg some (foldl_id _ pm acc ?_)
  intro ms kv hm
  rw [lookupExact_of_mem pm h3 kv hm]
  simp

/-- A header value matched against an identically normalizing value emits
nothing (provided a well-formed Content-Type value when the key is
Content-Type). -/
theorem matchHeaderValue_stripEq (k v1 v2 : String) (acc : List Mismatch)
    (hs : stripWhitespaceList v1 "," = stripWhitespaceList v2 ",")
    (hct : lowerStr k = "content-type" → ctValueWf (stripWhitespaceConcat v1 ",")) :
    matchHeaderValue k v1 v2 acc none = some acc := by
  have hcc : stripWhitespaceConcat v1 "," = stripWhitespaceConcat v2 "," := by
    unfold stripWhitespaceConcat
    rw [hs]
  unfold matchHeaderValue
  simp only [matcherIsDefined, Bool.false_eq_true, if_false]
  by_cases hk : lowerStr k = "content-type"
  · simp only [if_pos hk]
    rw [← hcc]
    exact matchContentType_self _ acc (hct hk)
  · simp only [if_neg hk]
    rw [← hcc]
    simp [strEqualityMatches]

/-- find_entry succeeds exactly when some actual key agrees with the
looked-up key up to case. -/
theorem findEntry_isSome_iff (map : List (String × String)) (key : String) :
    (findEntry map key).isSome = true ↔
      ∃ kv ∈ map, lowerStr kv.1 = lowerStr key := by
  unfold findEntry
  cases h : map.find? (fun kv => lowerStr kv.1 = lowerStr key) with
  | none =>
    simp only [Option.isSome_none, Bool.false_eq_true, false_iff]
    rintro ⟨kv, hm, hk⟩
    have := List.find?_eq_none.mp h kv hm
    simp [hk] at this
  | some kv =>
    simp only [Option.isSome_some, true_iff]
    refine ⟨kv, List.mem_of_find?_eq_some h, ?_⟩
    have := List.find?_some h
    simpa using this

/-- In an actual map whose keys are pairwise distinct after lowering,
find_entry on a key that some member matches up to case returns that
member's value, repackaged under the looked-up key. -/
theorem findEntry_of_mem (am : List (String × String))
    (hd : am.Pairwise (fun x y => lowerStr x.1 ≠ lowerStr y.1))
    (k : String) (kv : String × String) (hm : kv ∈ am)
    (hk : lowerStr kv.1 = lowerStr k) :
    findEntry am k = some (k, kv.2) := by
  induction am with
  | nil => cases hm
  | cons hd0 t ih =>
    rcases List.mem_cons.mp hm with rfl | hmt
    · unfold findEntry
      rw [List.find?_cons_of_pos _ (by simpa using hk)]
    · have hne : lowerStr hd0.1 ≠ lowerStr kv.1 := (List.pairwise_cons.mp hd).1 kv hmt
      have ht := ih (List.pairwise_cons.mp hd).2 hmt
      unfold findEntry at ht ⊢
      rw [List.find?_cons_of_neg _ (by simp [hk ▸ hne])]
      exact ht

end LibPact

namespace LibPact

open PactShared

/-- A Forall₂ pairing gives every left member a related right member. -/
theorem forall₂_mem_left {α β : Type} {R : α → β → Prop} {l1 : List α}
    {l2 : List β} (h : List.Forall₂ R l1 l2) :
    ∀ x ∈ l1, ∃ y ∈ l2, R x y := by
  induction h with
  | nil => intro x hx; cases hx
  | cons hR hT ih =>
    intro x hx
    rcases List.mem_cons.mp hx with rfl | hxt
    · exact ⟨_, by simp, hR⟩
    · obtain ⟨y, hy, hR2⟩ := ih x hxt
      exact ⟨y, by simp [hy], hR2⟩

/-- The parameter fold of match_content_type only appends. -/
theorem ctFold_acc (am : List (String × String)) (hm : Mismatch)
    (em : List (String × String)) (acc : List Mismatch) :
    (em.foldl (fun mismatches kv =>
      match lookupExact am kv.1 with
      | some av => if kv.2 ≠ av then mismatches ++ [hm] else mismatches
      | none => mismatches ++ [hm]) acc) =
    acc ++ (em.foldl (fun mismatches kv =>
      match lookupExact am kv.1 with
      | some av => if kv.2 ≠ av then mismatches ++ [hm] else mismatches
      | none => mismatches ++ [hm]) []) := by
  refine foldl_acc _ ?_ em acc
  intro ms kv
  cases lookupExact am kv.1
  · simp
  · rename_i av
    by_cases hv : kv.2 = av <;> simp [hv]

/-- If some expected parameter is absent or different in the actual
parameter map, the parameter fold of match_content_type appends at least
one mismatch. -/
theorem ctFold_ne_nil (am : List (String × String)) (hm : Mismatch) :
    ∀ em : List (String × String),
      (∃ kv ∈ em, lookupExact am kv.1 ≠ some kv.2) →
      (em.foldl (fun mismatches kv =>
        match lookupExact am kv.1 with
        | some av => if kv.2 ≠ av then mismatches ++ [hm] else mismatches
        | none => mismatches ++ [hm]) []) ≠ [] := by
  intro em
  induction em with
  | nil => rintro ⟨kv, hkv, _⟩; cases hkv
  | cons kv1 t ih =>
    rintro ⟨kv0, hkv0, hbad⟩
    rcases List.mem_cons.mp hkv0 with heq | hmt
    · subst heq
      cases hl : lookupExact am kv0.1 with
      | none =>
        simp only [List.foldl_cons, hl]
        rw [ctFold_acc]
        simp
      | some av =>
        have hne : kv0.2 ≠ av := fun hEq => hbad (by rw [hl, hEq])
        simp only [List.foldl_cons, hl, if_pos hne]
        rw [ctFold_acc]
        simp
    · cases hl : lookupExact am kv1.1 with
      | none =>
        simp only [List.foldl_cons, hl]
        rw [ctFold_acc]
        simp
      | some av =>
        by_cases hv : kv1.2 = av
        · simp only [List.foldl_cons, hl]
          rw [if_neg (by simp [hv])]
          exact ih ⟨kv0, hmt, hbad⟩
        · simp only [List.foldl_cons, hl, if_pos hv]
          rw [ctFold_acc]
          simp

/-- The parameter fold of match_content_type leaves the accumulator
unchanged exactly when every expected parameter appears in the actual
parameter map with an equal value. -/
theorem ctFold_eq_acc_iff (am : List (String × String)) (hm : Mismatch)
    (em : List (String × String)) (acc : List Mismatch) :
    (em.foldl (fun mismatches kv =>
      match lookupExact am kv.1 with
      | some av => if kv.2 ≠ av then mismatches ++ [hm] else mismatches
      | none => mismatches ++ [hm]) acc) = acc ↔
    ∀ kv ∈ em, lookupExact am kv.1 = some kv.2 := by
  constructor
  · intro h
    by_contra hbad
    push_neg at hbad
    obtain ⟨kv0, hkv0, hbad0⟩ := hbad
    have hne := ctFold_ne_nil am hm em ⟨kv0, hkv0, hbad0⟩
    rw [ctFold_acc] at h
    exact hne (by simpa using h)
  · intro h
    refine foldl_id _ em acc ?_
    intro ms kv hkv
    rw [h kv hkv]
    simp

end LibPact

namespace LibPact

open PactShared

/-- Walking the expected headers against an actual map that carries the
same values under case-variant, pairwise case-distinct keys emits
nothing. -/
theorem matchHeaderMapsGo_self (am : List (String × String))
    (hd : am.Pairwise (fun x y => lowerStr x.1 ≠ lowerStr y.1)) :
    ∀ (rest : List (String × String)) (acc : List Mismatch),
      (∀ kv ∈ rest, ∃ kv' ∈ am, lowerStr kv'.1 = lowerStr kv.1 ∧ kv'.2 = kv.2) →
      (∀ kv ∈ rest, lowerStr kv.1 = "content-type" →
        ctValueWf (stripWhitespaceConcat kv.2 ",")) →
      matchHeaderMapsGo am none rest acc = some acc := by
  intro rest
  induction rest with
  | nil => intro acc _ _; rfl
  | cons kv t ih =>
    intro acc hmem hwf
    obtain ⟨k, v⟩ := kv
    obtain ⟨kv', hmem', hlow, hval⟩ := hmem (k, v) (by simp)
    have hfe : findEntry am k = some (k, v) := by
      have := findEntry_of_mem am hd k kv' hmem' hlow
      rw [hval] at this
      exact this
    simp only [matchHeaderMapsGo, hfe]
    rw [matchHeaderValue_stripEq k v v acc rfl (hwf (k, v) (by simp))]
    exact ih acc (fun kv hm => hmem kv (by simp [hm]))
      (fun kv hm => hwf kv (by simp [hm]))

/-- An expected header whose key has no case-insensitive counterpart in the
actual map yields the missing-header mismatch in any returned list. -/
theorem matchHeaderMaps_missing :
    ∀ (em am : List (String × String)) (acc : List Mismatch)
      (m : Option Matchers) (k v : String), (k, v) ∈ em → findEntry am k = none →
      matchHeaderMaps em am acc m = none ∨
      ∃ out, matchHeaderMaps em am acc m = some out ∧
        Mismatch.headerMismatch k (PactMatching.rustDebugStr v) ""
          ("Expected header " ++ q k ++ " but was missing") ∈ out := by
  intro em
  induction em with
  | nil => intro am acc m k v hm _; cases hm
  | cons kv0 t ih =>
    intro am acc m k v hm hfe
    obtain ⟨k0, v0⟩ := kv0
    rcases List.mem_cons.mp hm with heq | hmt
    · injection heq with h1 h2
      subst h1
      subst h2
      simp only [matchHeaderMaps, matchHeaderMapsGo, hfe]
      rw [matchHeaderMapsGo_acc]
      cases matchHeaderMapsGo am m t [] with
      | none => left; rfl
      | some rest => right; exact ⟨_, rfl, by simp⟩
    · simp only [matchHeaderMaps, matchHeaderMapsGo]
      cases hfe0 : findEntry am k0 with
      | none =>
        have := ih am (acc ++ [.headerMismatch k0 (PactMatching.rustDebugStr v0) ""
          ("Expected header " ++ q k0 ++ " but was missing")]) m k v hmt hfe
        simpa [matchHeaderMaps] using this
      | some kv2 =>
        cases hv : matchHeaderValue k0 v0 kv2.2 acc m with
        | none => left; simp [hv]
        | some acc2 =>
          have := ih am acc2 m k v hmt hfe
          simpa [matchHeaderMaps, hv] using this

end LibPact

section Claims

open PactShared PactMatching LibPact

/-- C5 counterexample: with equal media types, the claim's
equality-on-shared-keys comparison of Content-Type parameters would accept
an actual value that simply lacks the expected charset parameter (no
shared keys), but match_headers emits a HeaderMismatch for it. -/
theorem c5_expected_param_missing_mismatches :
    matchHeaders (some [("Content-Type", "application/json;charset=utf-8")])
      (some [("Content-Type", "application/json")]) [] none ≠ some [] ∧
    matchHeaders (some [("Content-Type", "application/json;charset=utf-8")])
      (some [("Content-Type", "application/json")]) [] none =
      some [.headerMismatch "Content-Type" "application/json;charset=utf-8"
        "application/json"
        ("Expected header " ++ q "Content-Type" ++ " to have value " ++
          q "application/json;charset=utf-8" ++ " but was " ++ q "application/json")] := by
  constructor
  · decide
  · rfl

/-- C5 as amended: header keys are looked up case-insensitively; header
maps whose entries agree up to key case (keys case-distinct, Content-Type
parameters well-formed) produce no mismatches; values are compared after
comma-splitting and trimming; the Content-Type comparison succeeds exactly
when the media types are equal and every expected parameter appears in the
actual parameters with an equal value (extra actual parameters are
ignored); a missing expected header yields its HeaderMismatch; extra
actual headers (an empty expected map) yield nothing. -/
theorem c5_header_matching (map am em : List (String × String)) (key : String)
    (k v v1 v2 e a e0 a0 : String) (eps aps : List String)
    (pem pam : List (String × String)) (acc : List Mismatch)
    (m : Option Matchers) :
    ((findEntry map key).isSome = true ↔
      ∃ kv ∈ map, lowerStr kv.1 = lowerStr key) ∧
    (List.Forall₂ (fun x y => lowerStr x.1 = lowerStr y.1 ∧ x.2 = y.2) em am →
      am.Pairwise (fun x y => lowerStr x.1 ≠ lowerStr y.1) →
      (∀ kv ∈ em, lowerStr kv.1 = "content-type" →
        ctValueWf (stripWhitespaceConcat kv.2 ",")) →
      matchHeaderMaps em am acc none = some acc) ∧
    (stripWhitespaceList v1 "," = stripWhitespaceList v2 "," →
      (lowerStr k = "content-type" → ctValueWf (stripWhitespaceConcat v1 ",")) →
      matchHeaderValue k v1 v2 acc none = some acc) ∧
    (stripWhitespaceList e ";" = e0 :: eps → stripWhitespaceList a ";" = a0 :: aps →
      parseCharsetParameters eps = some pem → parseCharsetParameters aps = some pam →
      (matchContentType e a acc = some acc ↔
        (e0 = a0 ∧ ∀ kv ∈ pem, lookupExact pam kv.1 = some kv.2))) ∧
    ((k, v) ∈ em → findEntry am k = none →
      matchHeaderMaps em am acc m = none ∨
      ∃ out, matchHeaderMaps em am acc m = some out ∧
        Mismatch.headerMismatch k (PactMatching.rustDebugStr v) ""
          ("Expected header " ++ q k ++ " but was missing") ∈ out) ∧
    (matchHeaderMaps [] am acc m = some acc) := by
  refine ⟨findEntry_isSome_iff map key, ?_, ?_, ?_,
    matchHeaderMaps_missing em am acc m k v, rfl⟩
  · intro hrel hd hwf
    refine matchHeaderMapsGo_self am hd em acc ?_ hwf
    intro kv hm
    obtain ⟨y, hy, h1, h2⟩ := forall₂_mem_left hrel kv hm
    exact ⟨y, hy, h1.symm, h2.symm⟩
  · intro hs hct
    exact matchHeaderValue_stripEq k v1 v2 acc hs hct
  · intro hE hA hem ham
    unfold matchContentType
    rw [hE, hA]
    dsimp only
    by_cases h : e0 = a0
    · rw [if_pos h, hem, ham]
      dsimp only
      simp only [Option.some.injEq]
      rw [ctFold_eq_acc_iff]
      simp [h]
    · rw [if_neg h]
      refine iff_of_false ?_ (by simp [h])
      intro hc
      have := congrArg List.length (Option.some.inj hc)
      simp at this

/-- Witness for C5 at concrete inputs: the same Content-Type header under
case-variant keys yields no mismatches. -/
theorem c5_header_matching_witness :
    matchHeaderMaps [("Content-Type", "application/json")]
      [("content-type", "application/json")] [] none = some [] :=
  (c5_header_matching [] [("content-type", "application/json")]
    [("Content-Type", "application/json")] "" "" "" "" "" "" "" "" "" [] []
    [] [] [] none).2.1
    (List.Forall₂.cons ⟨by decide, rfl⟩ List.Forall₂.nil)
    (by simp)
    (by
      intro kv hm hct
      simp only [List.mem_singleton] at hm
      subst hm
      exact ⟨"application/json", [], [], by decide, rfl, by simp⟩)

end Claims

namespace LibPact

open PactShared

/-- Matching a method against itself adds nothing. -/
theorem matchMethod_refl (mstr : String) (ms : List Mismatch) :
    matchMethod mstr mstr ms = ms := by
  simp [matchMethod]

/-- Matching a path against itself with no rules adds nothing. -/
theorem matchPath_refl (p : String) (ms : List Mismatch) :
    matchPath p p ms none = ms := by
  simp [matchPath, matcherIsDefined, strEqualityMatches]

/-- Matching a status against itself adds nothing. -/
theorem matchStatus_refl (s : Nat) (ms : List Mismatch) :
    matchStatus s s ms = ms := by
  simp [matchStatus]

/-- Matching a part against itself with no rules adds nothing when its
content type selects the plain-text body matcher. -/
theorem matchBody_refl (env : BodyMatchEnv) (v : PartView) (config : DiffConfig)
    (ms : List Mismatch)
    (hj : mimeRegexMatch "application/" "json" (mimetype v) = false)
    (hx : mimeRegexMatch "application/" "xml" (mimetype v) = false) :
    matchBody env v v config ms none = ms := by
  unfold matchBody
  rw [if_pos rfl]
  cases hb : v.body <;>
    simp [compareBodies, hj, hx, matchText]

/-- The indexed value walk of a query parameter list against itself adds
nothing. -/
theorem compareQueryValuesGo_self (key : String) (e a : List String)
    (rest : List String) :
    ∀ (index : Nat) (acc : List Mismatch),
      (∀ j, j < rest.length → rest.getD j "" = a.getD (index + j) "") →
      rest.length + index = a.length →
      compareQueryValuesGo key e a none rest index acc = acc := by
  induction rest with
  | nil => intro index acc _ _; rfl
  | cons val t ih =>
    intro index acc hj hlen
    have hidx : index < a.length := by simp at hlen; omega
    have hval : a.getD index "" = val := by
      have := hj 0 (by simp)
      simpa using this.symm
    simp only [compareQueryValuesGo, if_pos hidx]
    rw [hval]
    have hstep : compareQueryParameterValue key val val acc none = acc := by
      simp [compareQueryParameterValue, matcherIsDefined, strEqualityMatches]
    rw [hstep]
    refine ih (index + 1) acc ?_ (by simp at hlen ⊢; omega)
    intro j hjt
    have := hj (j + 1) (by simpa using Nat.succ_lt_succ hjt)
    simpa [Nat.add_assoc, Nat.add_comm 1 j] using this

/-- Matching a query value list against itself with no rules adds
nothing. -/
theorem matchQueryValues_refl (key : String) (v : List String)
    (ms : List Mismatch) : matchQueryValues key v v ms none = ms := by
  unfold matchQueryValues
  have hne : (v.isEmpty && !v.isEmpty) = false := by
    cases v.isEmpty <;> rfl
  rw [hne]
  simp only [Bool.false_eq_true, if_false]
  rw [if_neg (by simp)]
  unfold compareQueryParameterValues
  exact compareQueryValuesGo_self key v v v 0 ms (fun j hjl => by simp) (by simp)

/-- Matching a query map against itself with no rules and exact-distinct
keys adds nothing. -/
theorem matchQuery_refl (qo : Option (List (String × List String)))
    (ms : List Mismatch)
    (hd : ∀ qs, qo = some qs → qs.Pairwise (fun x y => x.1 ≠ y.1)) :
    matchQuery qo qo ms none = ms := by
  cases hq : qo with
  | none => rfl
  | some qs =>
    have hdq := hd qs hq
    have hstep1 : ∀ (ms0 : List Mismatch) (kv : String × List String), kv ∈ qs →
        (match lookupExact qs kv.1 with
          | some actualValue => matchQueryValues kv.1 kv.2 actualValue ms0 none
          | none => ms0 ++ [Mismatch.queryMismatch kv.1 (rustDebugStrList kv.2) ""
              ("Expected query parameter " ++ q kv.1 ++ " but was missing")]) = ms0 := by
      intro ms0 kv hm
      rw [lookupExact_of_mem qs hdq kv hm]
      exact matchQueryValues_refl kv.1 kv.2 ms0
    have hstep2 : ∀ (ms0 : List Mismatch) (kv : String × List String), kv ∈ qs →
        (match lookupExact qs kv.1 with
          | some _ => ms0
          | none => ms0 ++ [Mismatch.queryMismatch kv.1 "" (rustDebugStrList kv.2)
              ("Unexpected query parameter " ++ q kv.1 ++ " received")]) = ms0 := by
      intro ms0 kv hm
      rw [lookupExact_of_mem qs hdq kv hm]
    unfold matchQuery matchQueryMaps
    dsimp only
    rw [foldl_id _ qs _ hstep2, foldl_id _ qs ms hstep1]

/-- Matching headers against themselves with no rules, case-distinct keys
and well-formed Content-Type parameters adds nothing. -/
theorem matchHeaders_refl (ho : Option (List (String × String)))
    (ms : List Mismatch)
    (hwf : ∀ hs, ho = some hs →
      hs.Pairwise (fun x y => lowerStr x.1 ≠ lowerStr y.1) ∧
      ∀ kv ∈ hs, lowerStr kv.1 = "content-type" →
        ctValueWf (stripWhitespaceConcat kv.2 ",")) :
    matchHeaders ho ho ms none = some ms := by
  cases hh : ho with
  | none => rfl
  | some hs =>
    obtain ⟨hd, hct⟩ := hwf hs hh
    unfold matchHeaders
    exact matchHeaderMapsGo_self hs hd hs ms (fun kv hm => ⟨kv, hm, rfl, rfl⟩) hct

end LibPact

section Claims

open PactShared PactMatching LibPact

/-- A request whose Content-Type header carries a parameter segment with
no equals sign, for the C9 counterexample. -/
def reqCT : Request :=
  { method := "GET", path := "/", query := none,
    headers := some [("Content-Type", "application/json; charset")],
    body := .missing, matchingRules := none }

/-- C9 counterexample: matching this request against itself does not
return the empty mismatch list; the header step panics while parsing the
Content-Type parameters. -/
theorem c9_reflexivity_counterexample :
    matchRequest envB0 reqCT reqCT ≠ some [] ∧
    matchRequest envB0 reqCT reqCT = none := by
  constructor
  · decide
  · rfl

/-- C9 as amended: matching a message against itself yields the empty
mismatch list provided it carries no matching rules, its header keys are
pairwise case-distinct with well-formed Content-Type parameters, its query
keys are pairwise distinct, and its content type selects the plain-text
body matcher. -/
theorem c9_reflexivity (env : BodyMatchEnv) (req : Request) (res : Response)
    (hreqRules : req.matchingRules = none)
    (hreqHead : ∀ hs, req.headers = some hs →
      hs.Pairwise (fun x y => lowerStr x.1 ≠ lowerStr y.1) ∧
      ∀ kv ∈ hs, lowerStr kv.1 = "content-type" →
        ctValueWf (stripWhitespaceConcat kv.2 ","))
    (hreqQuery : ∀ qs, req.query = some qs → qs.Pairwise (fun x y => x.1 ≠ y.1))
    (hreqJson : mimeRegexMatch "application/" "json" (mimetype req.toView) = false)
    (hreqXml : mimeRegexMatch "application/" "xml" (mimetype req.toView) = false)
    (hresRules : res.matchingRules = none)
    (hresHead : ∀ hs, res.headers = some hs →
      hs.Pairwise (fun x y => lowerStr x.1 ≠ lowerStr y.1) ∧
      ∀ kv ∈ hs, lowerStr kv.1 = "content-type" →
        ctValueWf (stripWhitespaceConcat kv.2 ","))
    (hresJson : mimeRegexMatch "application/" "json" (mimetype res.toView) = false)
    (hresXml : mimeRegexMatch "application/" "xml" (mimetype res.toView) = false) :
    matchRequest env req req = some [] ∧ matchResponse env res res = some [] := by
  constructor
  · unfold matchRequest
    dsimp only
    rw [hreqRules, matchMethod_refl, matchPath_refl,
      matchBody_refl env req.toView _ _ hreqJson hreqXml,
      matchQuery_refl _ _ hreqQuery]
    exact matchHeaders_refl _ _ hreqHead
  · unfold matchResponse
    dsimp only
    rw [hresRules, matchBody_refl env res.toView _ _ hresJson hresXml,
      matchStatus_refl]
    exact matchHeaders_refl _ _ hresHead

/-- A well-formed request for the C9 witness. -/
def reqRefl : Request :=
  { method := "GET", path := "/a", query := some [("a", ["1", "2"])],
    headers := some [("Content-Type", "text/plain; charset=utf-8"), ("Accept", "text/plain")],
    body := .present "hello", matchingRules := none }

/-- A well-formed response for the C9 witness. -/
def resRefl : Response :=
  { status := 200, headers := some [("Content-Type", "text/plain; charset=utf-8")],
    body := .present "hello", matchingRules := none }

/-- Witness for C9 at concrete inputs: a text request and response each
match themselves with no mismatches. -/
theorem c9_reflexivity_witness :
    matchRequest envB0 reqRefl reqRefl = some [] ∧
    matchResponse envB0 resRefl resRefl = some [] :=
  c9_reflexivity envB0 reqRefl resRefl rfl
    (by
      intro hs hh
      injection hh with hh
      subst hh
      refine ⟨by decide, ?_⟩
      intro kv hm hct2
      rcases List.mem_cons.mp hm with rfl | hm2
      · exact ⟨"text/plain", ["charset=utf-8"], [("charset", "utf-8")],
          by decide, by decide, by decide⟩
      · simp only [List.mem_singleton] at hm2
        subst hm2
        exact absurd hct2 (by decide))
    (by
      intro qs hq
      injection hq with hq
      subst hq
      decide)
    (by decide) (by decide) rfl
    (by
      intro hs hh
      injection hh with hh
      subst hh
      refine ⟨by decide, ?_⟩
      intro kv hm hct2
      simp only [List.mem_singleton] at hm
      subst hm
      exact ⟨"text/plain", ["charset=utf-8"], [("charset", "utf-8")],
        by decide, by decide, by decide⟩)
    (by decide) (by decide)

end Claims

namespace PactMatching

open PactShared

/-- merge_result with Ok on the left is the other result. -/
theorem mergeResult_ok_left (r : MResult) : mergeResult (.ok ()) r = r := by
  cases r <;> rfl

/-- merge_result with Ok on the right is the other result. -/
theorem mergeResult_ok_right (r : MResult) : mergeResult r (.ok ()) = r := by
  cases r <;> rfl

/-- merge_result is associative. -/
theorem mergeResult_assoc (a b c : MResult) :
    mergeResult (mergeResult a b) c = mergeResult a (mergeResult b c) := by
  cases a <;> cases b <;> cases c <;> simp [mergeResult]

/-- Merge of a list of results, Ok when empty. -/
def foldMergeList (l : List MResult) : MResult := l.foldl mergeResult (.ok ())

/-- The merge-form specification of the index loop of compare_list_content
under a context with no matchers: one comparison per expected index that
the actual list covers, one missing-element mismatch at the list path per
expected index it does not. -/
def listGoSpec (env : MatchEnv) (cd : Json → List Nat) (path : List String)
    (elist alist : List Json) (context : MatchingContext) :
    List Json → Nat → MResult
  | [], _ => .ok ()
  | value :: tail, index =>
    mergeResult
      (if index < alist.length then
        compare env cd (path ++ [toString index]) value (alist.getD index .null) context
      else
        .error [Mismatch2.bodyMismatch (joinDot path)
          (some (jsonToString (.arr elist))) (some (jsonToString (.arr alist)))
          ("Expected " ++ jsonToString value ++ " but was missing")])
      (listGoSpec env cd path elist alist context tail (index + 1))

/-- The index loop of compare_list_content equals the merge-form
specification, merged onto the incoming accumulator, when no matcher is
defined anywhere. -/
theorem compareListGo_merge (env : MatchEnv) (cd : Json → List Nat)
    (path : List String) (elist alist : List Json) (context : MatchingContext)
    (hnm : ∀ p, context.matcherIsDefined p = false) :
    ∀ (rest : List Json) (index : Nat) (acc : MResult),
      compareListGo env cd path elist alist context rest index acc =
        mergeResult acc (listGoSpec env cd path elist alist context rest index) := by
  intro rest
  induction rest with
  | nil =>
    intro index acc
    rw [compareListGo, listGoSpec, mergeResult_ok_right]
  | cons value tail ih =>
    intro index acc
    rw [compareListGo, listGoSpec]
    by_cases h : index < alist.length
    · simp only [if_pos h]
      rw [ih, mergeResult_assoc]
    · simp only [if_neg h, hnm, Bool.not_false, if_pos]
      rw [ih, mergeResult_assoc]

/-- compare_lists under a context with no matchers: the empty-expected
special case, else the element comparisons and missing-element reports in
index order merged with the single length mismatch when the lengths
differ. -/
theorem compareLists_noMatcher_eq (env : MatchEnv) (cd : Json → List Nat)
    (path : List String) (elist alist : List Json) (context : MatchingContext)
    (hnm : ∀ p, context.matcherIsDefined p = false) :
    compareLists env cd path elist alist context =
      if elist.isEmpty && !alist.isEmpty then
        .error [Mismatch2.bodyMismatch (joinDot path)
          (some (jsonToString (.arr elist))) (some (jsonToString (.arr alist)))
          ("Expected an empty List but received " ++ jsonToString (.arr alist))]
      else
        mergeResult (listGoSpec env cd path elist alist context elist 0)
          (if elist.length ≠ alist.length then
            .error [Mismatch2.bodyMismatch (joinDot path)
              (some (jsonToString (.arr elist))) (some (jsonToString (.arr alist)))
              ("Expected a List with " ++ toString elist.length ++
                " elements but received " ++ toString alist.length ++ " elements")]
          else .ok ()) := by
  rw [compareLists]
  rw [hnm]
  simp only [Bool.false_eq_true, if_false]
  by_cases hE : elist.isEmpty && !alist.isEmpty
  · simp only [if_pos hE]
  · simp only [if_neg hE]
    rw [compareListContent, compareListGo_merge env cd path elist alist context hnm,
      mergeResult_ok_left]
    by_cases hl : elist.length ≠ alist.length
    · simp only [if_pos hl]
    · simp only [if_neg hl, mergeResult_ok_right]

end PactMatching

section Claims

open PactShared PactMatching LibPact

/-- Decidable equality of structural matcher results, for concrete
counterexamples. -/
instance : DecidableEq MResult := fun a b =>
  match a, b with
  | .ok (), .ok () => isTrue rfl
  | .error e1, .error e2 =>
    if h : e1 = e2 then isTrue (by rw [h])
    else isFalse (fun hc => h (by injection hc))
  | .ok _, .error _ => isFalse (fun hc => by injection hc)
  | .error _, .ok _ => isFalse (fun hc => by injection hc)

/-- A context with no matchers defined anywhere. -/
def ctxNone : MatchingContext :=
  { config := .allowUnexpectedKeys
    matcherIsDefined := fun _ => false
    selectBestMatcher := fun _ => { rules := [], ruleLogic := .and, cascaded := false }
    matchKeys := fun _ _ _ => .ok ()
    compareListsWithRule := fun _ _ _ _ => .ok ()
    compareMapsWithRule := fun _ _ _ _ => .ok () }

/-- A trivial convert_data for concrete instantiations. -/
def cd0 : Json → List Nat := fun _ => []

/-- The list comparison exactly as the claim states it: pairwise element
comparisons for the indices up to the shorter length, plus exactly one
additional length mismatch at the list path when the lengths differ, and
nothing else. -/
def compareListsClaim (env : MatchEnv) (cd : Json → List Nat) (path : List String)
    (elist alist : List Json) (context : MatchingContext) : MResult :=
  mergeResult
    (foldMergeList ((List.range (min elist.length alist.length)).map (fun i =>
      compare env cd (path ++ [toString i]) (elist.getD i .null) (alist.getD i .null)
        context)))
    (if elist.length ≠ alist.length then
      .error [Mismatch2.bodyMismatch (joinDot path)
        (some (jsonToString (.arr elist))) (some (jsonToString (.arr alist)))
        ("Expected a List with " ++ toString elist.length ++
          " elements but received " ++ toString alist.length ++ " elements")]
    else .ok ()) 

/-- C8 counterexample: with a longer expected list, compare_lists emits a
missing-element mismatch per uncovered expected index in addition to the
length mismatch, so it differs from the claim's description, which allows
only the element comparisons plus one length mismatch. -/
theorem c8_list_comparison_counterexample :
    compareLists env0 cd0 ["$"] [Json.num (.posInt 1), Json.num (.posInt 2)] []
      ctxNone ≠
    compareListsClaim env0 cd0 ["$"] [Json.num (.posInt 1), Json.num (.posInt 2)] []
      ctxNone := by
  rw [compareLists_noMatcher_eq env0 cd0 ["$"]
    [Json.num (.posInt 1), Json.num (.posInt 2)] [] ctxNone (fun _ => rfl)]
  decide

/-- C8 as amended: under a context with no matchers, compare_lists handles
an empty expected list against a non-empty actual list with a single
empty-list mismatch; otherwise it merges, in index order over the expected
list, one comparison at path plus index for every index the actual list
covers and one missing-element mismatch at the list path for every index
it does not, and finally one length mismatch when the lengths differ;
equal-length lists produce only the element-wise results. -/
theorem c8_list_comparison (env : MatchEnv) (cd : Json → List Nat)
    (path : List String) (elist alist : List Json) (context : MatchingContext)
    (hnm : ∀ p, context.matcherIsDefined p = false) :
    (compareLists env cd path elist alist context =
      if elist.isEmpty && !alist.isEmpty then
        .error [Mismatch2.bodyMismatch (joinDot path)
          (some (jsonToString (.arr elist))) (some (jsonToString (.arr alist)))
          ("Expected an empty List but received " ++ jsonToString (.arr alist))]
      else
        mergeResult (listGoSpec env cd path elist alist context elist 0)
          (if elist.length ≠ alist.length then
            .error [Mismatch2.bodyMismatch (joinDot path)
              (some (jsonToString (.arr elist))) (some (jsonToString (.arr alist)))
              ("Expected a List with " ++ toString elist.length ++
                " elements but received " ++ toString alist.length ++ " elements")]
          else .ok ())) ∧
    (elist.length = alist.length →
      compareLists env cd path elist alist context =
        listGoSpec env cd path elist alist context elist 0) := by
  refine ⟨compareLists_noMatcher_eq env cd path elist alist context hnm, ?_⟩
  intro hlen
  rw [compareLists_noMatcher_eq env cd path elist alist context hnm]
  have hE : (elist.isEmpty && !alist.isEmpty) = false := by
    cases he : elist.isEmpty
    · rfl
    · have : alist.isEmpty = true := by
        rw [List.isEmpty_iff] at he ⊢
        rw [← List.length_eq_zero] at he ⊢
        omega
      simp [this]
  rw [hE]
  simp only [Bool.false_eq_true, if_false, if_neg (by omega : ¬elist.length ≠ alist.length),
    mergeResult_ok_right]

/-- Witness for C8 at concrete inputs: a two-element expected list against
a one-element actual list produces the element comparison and missing
report merged with the length mismatch. -/
theorem c8_list_comparison_witness :
    compareLists env0 cd0 ["$"] [Json.num (.posInt 1), Json.num (.posInt 2)]
      [Json.num (.posInt 9)] ctxNone =
      mergeResult (listGoSpec env0 cd0 ["$"]
        [Json.num (.posInt 1), Json.num (.posInt 2)] [Json.num (.posInt 9)] ctxNone
        [Json.num (.posInt 1), Json.num (.posInt 2)] 0)
        (.error [Mismatch2.bodyMismatch "$" (some "[1,2]") (some "[9]")
          "Expected a List with 2 elements but received 1 elements"]) := by
  exact (c8_list_comparison env0 cd0 ["$"]
    [Json.num (.posInt 1), Json.num (.posInt 2)] [Json.num (.posInt 9)] ctxNone
    (fun _ => rfl)).1

end Claims
